import Mathlib

/-!
Verification of the trap-delivery core of the riscv-ovpsim hart model
(src/riscv-ovpsim/source/riscvExceptions.c) against its natural-language
specification.  The C code is shallowly embedded: the processor structure
becomes a Lean record, CSR fields become record fields, and each C function
on the claim paths becomes a pure Lean function from state to state.
Machine integers are modelled as Nat with explicit masking where the C
width matters.  External simulator primitives (PC update, memory reads,
observer callbacks) are modelled as state fields or ghost event counters.
-/

set_option maxHeartbeats 4000000
set_option maxRecDepth 4096

/-! ## Enumerations and constants -/

/-- Privilege mode encodings, as in the RISC-V privileged specification. -/
def RISCV_MODE_USER : Nat := 0

/-- Supervisor mode encoding. -/
def RISCV_MODE_SUPERVISOR : Nat := 1

/-- Hypervisor mode encoding (never a legal CLIC target). -/
def RISCV_MODE_HYPERVISOR : Nat := 2

/-- Machine mode encoding. -/
def RISCV_MODE_MACHINE : Nat := 3

/-- Interrupt controller modes held in xtvec.MODE: direct dispatch. -/
def riscv_int_Direct : Nat := 0

/-- Interrupt controller mode: vectored dispatch. -/
def riscv_int_Vectored : Nat := 1

/-- Interrupt controller mode: CLIC dispatch. -/
def riscv_int_CLIC : Nat := 3

/-- Sentinel for no pending interrupt (RV_NO_INT in the source). -/
def RV_NO_INT : Int := -1

/-- Sentinel for no active exclusive-access reservation. -/
def RISCV_NO_TAG : Int := -1

/-- Modelled from the spec: riscvExceptionDefinitions.h is not in src.
The riscvException enumeration places the synchronous exception codes at
their architectural values 0..15 and interrupt number i at 16+i, so
isInterrupt(e) holds iff 16 <= e, exceptionToInt subtracts 16 and local
interrupts (numbered from 16) start at enumeration value 32. -/
def riscv_E_Interrupt : Nat := 16

/-- Breakpoint synchronous exception code. -/
def riscv_E_Breakpoint : Nat := 3

/-- Load access fault synchronous exception code. -/
def riscv_E_LoadAccessFault : Nat := 5

/-- ECALL-from-U synchronous exception code. -/
def riscv_E_EnvironmentCallFromUMode : Nat := 8

/-- ECALL-from-M synchronous exception code. -/
def riscv_E_EnvironmentCallFromMMode : Nat := 11

/-- Enumeration value of the U external interrupt (interrupt number 8);
also the base used for the per-mode external-interrupt ID offset. -/
def riscv_E_ExternalInterrupt : Nat := riscv_E_Interrupt + 8

/-- Enumeration value of the M external interrupt (interrupt number 11). -/
def riscv_E_MExternalInterrupt : Nat := riscv_E_Interrupt + 11

/-- First local interrupt number (locals are numbered from 16). -/
def riscv_E_Local : Nat := 16

/-- Is this riscvException enumeration value an interrupt? -/
def isInterrupt (e : Nat) : Bool := riscv_E_Interrupt ≤ e

/-- Interrupt number of an interrupt enumeration value. -/
def exceptionToInt (e : Nat) : Nat := e - riscv_E_Interrupt

/-- Enumeration value of an interrupt number. -/
def intToException (i : Nat) : Nat := i + riscv_E_Interrupt

/-- Modelled from the spec: getExceptionCode (riscvUtils) returns the
architectural cause code: the interrupt number for interrupts, the
synchronous code otherwise. -/
def getExceptionCode (e : Nat) : Nat := if isInterrupt e then e - riscv_E_Interrupt else e

/-- Modelled from the spec: riscvPrivVer ordering; 1.11 precedes the
20190405 draft which precedes 1.12 (only the order is used). -/
def RVPV_1_11 : Nat := 2

/-- Privileged-architecture version constant for the 20190405 draft. -/
def RVPV_20190405 : Nat := 3

/-- Privileged-architecture version constant for version 1.12. -/
def RVPV_1_12 : Nat := 4

/-- Modelled from the spec: architecture option bit for the A extension. -/
def ISA_A : Nat := 2 ^ 0

/-- Architecture option bit for the C (compressed) extension. -/
def ISA_C : Nat := 2 ^ 2

/-- Architecture option bit for the N (user interrupts) extension. -/
def ISA_N : Nat := 2 ^ 13

/-- Architecture option bit for the S privilege level. -/
def ISA_S : Nat := 2 ^ 18

/-- Architecture option bit for the U privilege level. -/
def ISA_U : Nat := 2 ^ 20

/-- Access-fault detail: no access fault. -/
def riscv_AFault_None : Nat := 0

/-- Access-fault detail: fault signalled by a device. -/
def riscv_AFault_Device : Nat := 2

/-- Modelled from the spec: processor disable-reason flags (riscvStructure.h
is not in src); only distinctness matters. -/
def RVD_DEBUG : Nat := 1

/-- Disable reason: WFI halt. -/
def RVD_WFI : Nat := 2

/-- Disable reason: reset signal high. -/
def RVD_RESET : Nat := 4

/-- Restart mask used when leaving WFI. -/
def RVD_RESTART_WFI : Nat := RVD_WFI

/-- Restart mask used when an NMI arrives. -/
def RVD_RESTART_NMI : Nat := RVD_WFI

/-- Debug-mode operation configured as simulator interrupt. -/
def RVDM_INTERRUPT : Nat := 1

/-- Debug-mode operation configured as vectored entry. -/
def RVDM_VECTOR : Nat := 2

/-- Debug-mode operation configured as halt. -/
def RVDM_HALT : Nat := 3

/-- Debug-mode entry cause: none (nested entry / exception in Debug-Mode). -/
def DMC_NONE : Nat := 0

/-- Debug-mode entry cause: external halt request. -/
def DMC_HALTREQ : Nat := 1

/-- All-ones mask of a 64-bit register read. -/
def allOnes64 : Nat := 2 ^ 64 - 1

/-- Bitwise complement within 64 bits. -/
def compl64 (x : Nat) : Nat := allOnes64 ^^^ (x &&& allOnes64)

/-- Clear the least-significant bit (the C idiom x & -2). -/
def clearBit0 (x : Nat) : Nat := x / 2 * 2

/-! ## Register and state records -/

/-- The mstatus fields used by the trap-delivery core. -/
structure Mstatus where
  MIE : Bool
  SIE : Bool
  UIE : Bool
  MPIE : Bool
  SPIE : Bool
  UPIE : Bool
  MPP : Nat
  SPP : Nat
  MPRV : Bool
deriving Repr, DecidableEq

/-- An xcause register: exception code, interrupt flag, previous interrupt
level (CLIC) and in-hardware-vectoring flag (CLIC). -/
structure Xcause where
  ExceptionCode : Nat
  Interrupt : Bool
  pil : Nat
  inhv : Bool
deriving Repr, DecidableEq

/-- An xtvec register: base (already right-shifted by 2) and mode fields. -/
structure Xtvec where
  BASE : Nat
  MODE : Nat
deriving Repr, DecidableEq

/-- The mintstatus register: current interrupt level per mode. -/
structure Mintstatus where
  mil : Nat
  sil : Nat
  uil : Nat
deriving Repr, DecidableEq

/-- The pending-and-enabled interrupt selection record. -/
structure PendEnab where
  id : Int
  priv : Nat
  level : Nat
  isCLIC : Bool
deriving Repr, DecidableEq

/-- The CLIC presented-interrupt record clic.sel. -/
structure CLICSel where
  id : Int
  priv : Nat
  level : Nat
  shv : Bool
deriving Repr, DecidableEq

/-- The cliccfg register fields. -/
structure CLICcfg where
  nmbits : Nat
  nlbits : Nat
  nvbits : Nat
deriving Repr, DecidableEq

/-- Per-interrupt CLIC control state: the four bytes ip, ie, attr, ctl. -/
structure CLICIntState where
  ip : Nat
  ie : Nat
  attr : Nat
  ctl : Nat
deriving Repr, DecidableEq

/-- Latched net input values. -/
structure NetValue where
  reset : Bool
  nmi : Bool
  haltreq : Bool
  resethaltreq : Bool
  resethaltreqS : Bool
  deferint : Bool
deriving Repr, DecidableEq

/-- The dcsr fields used by the trap-delivery core. -/
structure Dcsr where
  prv : Nat
  cause : Nat
  step : Bool
  ebreaku : Bool
  ebreaks : Bool
  ebreakm : Bool
  stopcount : Bool
  nmip : Bool
deriving Repr, DecidableEq

/-- Static configuration of the hart. -/
structure ConfigInfo where
  tval_zero : Bool
  tval_ii_code : Bool
  ecode_nmi : Nat
  reset_address : Nat
  nmi_address : Nat
  debug_address : Nat
  dexc_address : Nat
  debug_mode : Nat
  priv_version : Nat
  xret_preserves_lr : Bool
  arch : Nat
  local_int_num : Nat
  external_int_id : Bool
  CLICCFGMBITS : Nat
  CLICSELHVEC : Nat
  CLICINTCTLBITS : Nat
  unimp_int_mask : Nat
deriving Repr, DecidableEq

/-- The hart state mutated by the trap-delivery core.  CSR accessor macros
(RD_CSR, WR_CSR_FIELD: external CSR view) become direct field access; the
useCLIC[MSU], basicICPresent and CLICPresent predicates (defined outside
src) are modelled as state flags; vmirt memory reads of the CLIC vector
table are modelled by the functions vecMem (value read at an address) and
vecFault (the exception and tval raised when a read at an address traps);
external observer callbacks and simulator services become ghost event
counters. -/
structure Riscv where
  configInfo : ConfigInfo
  mode : Nat
  DM : Bool
  DMStall : Bool
  disable : Nat
  pc : Nat
  jumpBase : Nat
  dsOffset : Nat
  currentArch : Nat
  mstatus : Mstatus
  mcause : Xcause
  scause : Xcause
  ucause : Xcause
  mepc : Nat
  sepc : Nat
  uepc : Nat
  mepcMask : Nat
  sepcMask : Nat
  uepcMask : Nat
  mtval : Nat
  stval : Nat
  utval : Nat
  mtvec : Xtvec
  stvec : Xtvec
  utvec : Xtvec
  MIMode : Nat
  SIMode : Nat
  UIMode : Nat
  mtvt : Nat
  stvt : Nat
  utvt : Nat
  mintstatus : Mintstatus
  mintthresh : Nat
  sintthresh : Nat
  uintthresh : Nat
  mideleg : Nat
  sideleg : Nat
  medeleg : Nat
  sedeleg : Nat
  mip : Nat
  mie : Nat
  mcountinhibitIR : Bool
  baseInstructions : Nat
  baseCycles : Nat
  instretRaw : Nat
  exclusiveTag : Int
  exception : Nat
  AFErrorIn : Nat
  AFErrorOut : Nat
  pendEnab : PendEnab
  clicSel : CLICSel
  cliccfg : CLICcfg
  clicIntState : Nat → CLICIntState
  clicIpe : Nat
  ip : Nat
  swip : Nat
  extInt : Nat → Nat
  netValue : NetValue
  dcsr : Dcsr
  dpc : Nat
  vFirstFault : Bool
  vstart : Nat
  vstartMask : Nat
  vl : Nat
  useCLICMFlag : Bool
  useCLICSFlag : Bool
  useCLICUFlag : Bool
  basicICFlag : Bool
  clicFlag : Bool
  xlen : Nat
  vecMem : Nat → Nat
  vecFault : Nat → Option (Nat × Nat)
  trapNotifyCount : Nat
  eretNotifyCount : Nat
  haltRestartNotifyCount : Nat
  syncIntCount : Nat
  abortRepeatCount : Nat
  simInterruptCount : Nat
  intStateTrace : Nat

/-! ## Utility accessors -/

/-- Modelled from the spec: inDebugMode (riscvUtils) reads the Debug-Mode
flag. -/
def inDebugMode (st : Riscv) : Bool := st.DM

/-- Modelled from the spec: getCurrentMode (riscvUtils) reads the current
privilege. -/
def getCurrentMode (st : Riscv) : Nat := st.mode

/-- Modelled from the spec: riscvSetMode (riscvUtils) switches the current
privilege. -/
def riscvSetMode (st : Riscv) (m : Nat) : Riscv := { st with mode := m }

/-- Return PC to which to return after taking an exception: the original
instruction (jumpBase) when inside an instruction-table detour. -/
def getEPC (st : Riscv) : Nat := if st.dsOffset ≠ 0 then st.jumpBase else st.pc

/-- Clear any active exclusive access. -/
def clearEA (st : Riscv) : Riscv := { st with exclusiveTag := RISCV_NO_TAG }

/-- Clear any active exclusive access on an xRET, if required. -/
def clearEAxRET (st : Riscv) : Riscv :=
  if st.configInfo.xret_preserves_lr then st else clearEA st

/-- Modelled from the spec: riscvInhibitInstret (riscvCSR) reads
mcountinhibit.IR. -/
def riscvInhibitInstret (st : Riscv) : Bool := st.mcountinhibitIR

/-- Modelled from the spec: architectural retired-instruction counter;
the simulator counts every executed instruction in instretRaw and the
model subtracts baseInstructions, so incrementing baseInstructions
un-counts the current instruction. -/
def archInstret (st : Riscv) : Int := (st.instretRaw : Int) - (st.baseInstructions : Int)

/-- Pure core of getModeX: delegation lookup (as Uns32 masks), raised to
the current mode because an exception cannot be taken to a
lower-privilege mode. -/
def getModeXPure (mMask sMask ecode modeY : Nat) : Nat :=
  let modeX : Nat :=
    if (mMask % 2 ^ 32).testBit ecode = false then RISCV_MODE_MACHINE
    else if (sMask % 2 ^ 32).testBit ecode = false then RISCV_MODE_SUPERVISOR
    else RISCV_MODE_USER
  if modeY < modeX then modeX else modeY

/-- Return the mode to which to take the given exception or interrupt. -/
def getModeX (st : Riscv) (mMask sMask ecode : Nat) : Nat :=
  getModeXPure mMask sMask ecode (getCurrentMode st)

/-- Return the mode to which to take the given interrupt. -/
def getInterruptModeX (st : Riscv) (ecode : Nat) : Nat :=
  getModeX st st.mideleg st.sideleg ecode

/-- Return the mode to which to take the given exception. -/
def getExceptionModeX (st : Riscv) (ecode : Nat) : Nat :=
  getModeX st st.medeleg st.sedeleg ecode

/-- Interrupt mode: the xtvec MODE field when non-zero, else the custom
per-mode mode. -/
def getIMode (customMode tvecMode : Nat) : Nat :=
  if tvecMode ≠ 0 then tvecMode else customMode

/-- Does this exception code correspond to a retired instruction? -/
def retiredCode (st : Riscv) (exception : Nat) : Bool :=
  if exception = 3 ∨ exception = 8 ∨ exception = 9 ∨ exception = 10 ∨ exception = 11 then
    st.configInfo.priv_version < RVPV_1_12
  else
    false

/-- Does this exception code correspond to an access fault? -/
def accessFaultCode (exception : Nat) : Bool :=
  exception = 1 ∨ exception = 5 ∨ exception = 7

/-- Is the exception an external interrupt? -/
def isExternalInterrupt (exception : Nat) : Bool :=
  riscv_E_ExternalInterrupt ≤ exception ∧ exception ≤ riscv_E_MExternalInterrupt

/-- useCLICM predicate (defined outside src), modelled as a state flag. -/
def useCLICM (st : Riscv) : Bool := st.useCLICMFlag

/-- useCLICS predicate, modelled as a state flag. -/
def useCLICS (st : Riscv) : Bool := st.useCLICSFlag

/-- useCLICU predicate, modelled as a state flag. -/
def useCLICU (st : Riscv) : Bool := st.useCLICUFlag

/-- basicICPresent predicate, modelled as a state flag. -/
def basicICPresent (st : Riscv) : Bool := st.basicICFlag

/-- CLICPresent predicate, modelled as a state flag. -/
def CLICPresent (st : Riscv) : Bool := st.clicFlag

/-! ## Per-target-mode CSR views

The C code handles the three target modes with the TARGET_MODE_X macro
instantiated per branch (X = 0 selects the U registers, X = 1 the S
registers, everything else the M registers, mirroring the branch
structure of riscvTakeException). -/

/-- mstatus.XIE for target mode X. -/
def getXIE (st : Riscv) (m : Nat) : Bool :=
  if m = RISCV_MODE_USER then st.mstatus.UIE
  else if m = RISCV_MODE_SUPERVISOR then st.mstatus.SIE
  else st.mstatus.MIE

/-- mstatus.XPIE for target mode X. -/
def getXPIE (st : Riscv) (m : Nat) : Bool :=
  if m = RISCV_MODE_USER then st.mstatus.UPIE
  else if m = RISCV_MODE_SUPERVISOR then st.mstatus.SPIE
  else st.mstatus.MPIE

/-- Write mstatus.XIE for target mode X. -/
def setXIE (st : Riscv) (m : Nat) (v : Bool) : Riscv :=
  if m = RISCV_MODE_USER then { st with mstatus := { st.mstatus with UIE := v } }
  else if m = RISCV_MODE_SUPERVISOR then { st with mstatus := { st.mstatus with SIE := v } }
  else { st with mstatus := { st.mstatus with MIE := v } }

/-- Write mstatus.XPIE for target mode X. -/
def setXPIE (st : Riscv) (m : Nat) (v : Bool) : Riscv :=
  if m = RISCV_MODE_USER then { st with mstatus := { st.mstatus with UPIE := v } }
  else if m = RISCV_MODE_SUPERVISOR then { st with mstatus := { st.mstatus with SPIE := v } }
  else { st with mstatus := { st.mstatus with MPIE := v } }

/-- xcause for target mode X. -/
def getXcause (st : Riscv) (m : Nat) : Xcause :=
  if m = RISCV_MODE_USER then st.ucause
  else if m = RISCV_MODE_SUPERVISOR then st.scause
  else st.mcause

/-- Write xcause for target mode X. -/
def setXcause (st : Riscv) (m : Nat) (v : Xcause) : Riscv :=
  if m = RISCV_MODE_USER then { st with ucause := v }
  else if m = RISCV_MODE_SUPERVISOR then { st with scause := v }
  else { st with mcause := v }

/-- xepc for target mode X. -/
def getXepc (st : Riscv) (m : Nat) : Nat :=
  if m = RISCV_MODE_USER then st.uepc
  else if m = RISCV_MODE_SUPERVISOR then st.sepc
  else st.mepc

/-- Writable-bits mask of xepc for target mode X. -/
def getXepcMask (st : Riscv) (m : Nat) : Nat :=
  if m = RISCV_MODE_USER then st.uepcMask
  else if m = RISCV_MODE_SUPERVISOR then st.sepcMask
  else st.mepcMask

/-- Write xepc for target mode X. -/
def setXepc (st : Riscv) (m : Nat) (v : Nat) : Riscv :=
  if m = RISCV_MODE_USER then { st with uepc := v }
  else if m = RISCV_MODE_SUPERVISOR then { st with sepc := v }
  else { st with mepc := v }

/-- xtval for target mode X. -/
def getXtval (st : Riscv) (m : Nat) : Nat :=
  if m = RISCV_MODE_USER then st.utval
  else if m = RISCV_MODE_SUPERVISOR then st.stval
  else st.mtval

/-- Write xtval for target mode X. -/
def setXtval (st : Riscv) (m : Nat) (v : Nat) : Riscv :=
  if m = RISCV_MODE_USER then { st with utval := v }
  else if m = RISCV_MODE_SUPERVISOR then { st with stval := v }
  else { st with mtval := v }

/-- xtvec for target mode X. -/
def getXtvec (st : Riscv) (m : Nat) : Xtvec :=
  if m = RISCV_MODE_USER then st.utvec
  else if m = RISCV_MODE_SUPERVISOR then st.stvec
  else st.mtvec

/-- Custom interrupt mode override for target mode X. -/
def getXIMode (st : Riscv) (m : Nat) : Nat :=
  if m = RISCV_MODE_USER then st.UIMode
  else if m = RISCV_MODE_SUPERVISOR then st.SIMode
  else st.MIMode

/-- xtvt for target mode X. -/
def getXtvt (st : Riscv) (m : Nat) : Nat :=
  if m = RISCV_MODE_USER then st.utvt
  else if m = RISCV_MODE_SUPERVISOR then st.stvt
  else st.mtvt

/-- mintstatus.xil for target mode X. -/
def getXil (st : Riscv) (m : Nat) : Nat :=
  if m = RISCV_MODE_USER then st.mintstatus.uil
  else if m = RISCV_MODE_SUPERVISOR then st.mintstatus.sil
  else st.mintstatus.mil

/-- Write mintstatus.xil for target mode X. -/
def setXil (st : Riscv) (m : Nat) (v : Nat) : Riscv :=
  if m = RISCV_MODE_USER then { st with mintstatus := { st.mintstatus with uil := v } }
  else if m = RISCV_MODE_SUPERVISOR then { st with mintstatus := { st.mintstatus with sil := v } }
  else { st with mintstatus := { st.mintstatus with mil := v } }

/-- Write xcause.inhv for target mode X. -/
def setXcauseInhv (st : Riscv) (m : Nat) (v : Bool) : Riscv :=
  setXcause st m { getXcause st m with inhv := v }

/-! ## Pending interrupt computation (basic interrupt controller) -/

/-- Return interrupt enable for the passed mode, given a raw interrupt
enable bit: raised to 1 when the current mode is strictly below the
target mode, zeroed when strictly above it (and zeroed in CLIC mode). -/
def getIE (st : Riscv) (IE : Bool) (modeIE : Nat) (useCLIC : Bool) : Bool :=
  if useCLIC then false
  else if getCurrentMode st < modeIE then true
  else if modeIE < getCurrentMode st then false
  else IE

/-- Mask of pending basic mode interrupts (64-bit CSR reads). -/
def getPendingBasic (st : Riscv) : Nat := (st.mie &&& st.mip) &&& allOnes64

/-- Is any CLIC mode interrupt pending? -/
def getPendingCLIC (st : Riscv) : Bool := st.clicSel.id != RV_NO_INT

/-- Is any interrupt pending (either basic mode or CLIC mode)? -/
def getPending (st : Riscv) : Bool := (getPendingBasic st != 0) || getPendingCLIC st

/-- Fixed priority for the indexed interrupt (higher is more important;
local and custom interrupts get the lowest priority 0). -/
def getIntPri (intNum : Nat) : Nat :=
  if intNum = 4 then 1
  else if intNum = 0 then 2
  else if intNum = 8 then 3
  else if intNum = 5 then 4
  else if intNum = 1 then 5
  else if intNum = 9 then 6
  else if intNum = 7 then 7
  else if intNum = 3 then 8
  else if intNum = 11 then 9
  else 0

/-- Pending-and-enabled basic interrupts after applying the per-mode
effective interrupt-enable masks derived from mideleg and sideleg. -/
def maskedPendingBasic (st : Riscv) : Nat :=
  let pendingEnabled := getPendingBasic st
  if pendingEnabled ≠ 0 then
    let MIE := getIE st st.mstatus.MIE RISCV_MODE_MACHINE (useCLICM st)
    let SIE := getIE st st.mstatus.SIE RISCV_MODE_SUPERVISOR (useCLICS st)
    let UIE := getIE st st.mstatus.UIE RISCV_MODE_USER (useCLICU st)
    let mideleg := st.mideleg &&& allOnes64
    let sideleg := st.sideleg &&& mideleg
    let mMask := compl64 mideleg
    let sMask := mideleg &&& compl64 sideleg
    let uMask := sideleg
    let pe1 := if MIE then pendingEnabled else pendingEnabled &&& compl64 mMask
    let pe2 := if SIE then pe1 else pe1 &&& compl64 sMask
    if UIE then pe2 else pe2 &&& compl64 uMask
  else pendingEnabled

/-- Candidate record for interrupt id considered by the basic arbiter. -/
def tryOf (st : Riscv) (id : Nat) : PendEnab :=
  { id := (id : Int), priv := getInterruptModeX st id, level := 0, isCLIC := false }

/-- One step of the basic arbiter selection loop. -/
def basicSelStep (st : Riscv) (sel : PendEnab) (id : Nat) : PendEnab :=
  let t := tryOf st id
  if sel.id = RV_NO_INT then t
  else if sel.priv < t.priv then t
  else if t.priv < sel.priv then sel
  else if getIntPri sel.id.toNat ≤ getIntPri id then t
  else sel

/-- Interrupt ids probed by the basic arbiter, in ascending order (the
source scans the 64 bits of the pending-and-enabled word). -/
def basicCands (st : Riscv) : List Nat :=
  (List.range 64).filter (fun i => (maskedPendingBasic st).testBit i)

/-- Refresh pending basic interrupt state: select the highest-priority
pending-and-enabled interrupt. -/
def refreshPendingAndEnabledBasic (st : Riscv) : Riscv :=
  if maskedPendingBasic st ≠ 0 then
    { st with pendEnab := (basicCands st).foldl (basicSelStep st) st.pendEnab }
  else st

/-! ## Pending interrupt computation (CLIC) -/

/-- Mask of always-1 bits in clicintctl. -/
def getCLICIntCtl1Bits (st : Riscv) : Nat := 2 ^ (8 - st.configInfo.CLICINTCTLBITS) - 1

/-- shv bit of a clicintattr byte (CLIC register layout: shv at bit 0,
trig at bits 2:1, WPRI at bits 5:3, mode at bits 7:6). -/
def attrShv (a : Nat) : Nat := a &&& 1

/-- trig field of a clicintattr byte. -/
def attrTrig (a : Nat) : Nat := (a >>> 1) &&& 3

/-- mode field of a clicintattr byte. -/
def attrMode (a : Nat) : Nat := (a >>> 6) &&& 3

/-- Privilege mode targeted by the interrupt with the given index,
combining cliccfg.nmbits, CLICCFGMBITS and clicintattr.mode. -/
def getCLICInterruptMode (st : Riscv) (intIndex : Nat) : Nat :=
  let attr_mode := attrMode (st.clicIntState intIndex).attr
  let nmbits := st.cliccfg.nmbits
  if nmbits = 0 then RISCV_MODE_MACHINE
  else if st.configInfo.CLICCFGMBITS = 1 then
    (if attr_mode &&& 2 ≠ 0 then RISCV_MODE_MACHINE else RISCV_MODE_USER)
  else attr_mode ||| (if nmbits = 1 then 1 else 0)

/-- Total number of interrupts (including numbers 0 to 15). -/
def getIntNum (st : Riscv) : Nat := st.configInfo.local_int_num + riscv_E_Local

/-- Number of bits scanned by the CLIC arbiter (ipDWords 64-bit words). -/
def scanN (st : Riscv) : Nat := 64 * ((getIntNum st + 63) / 64)

/-- Interrupt ids set in the pending-and-enabled ipe mask, ascending. -/
def clicCands (st : Riscv) : List Nat :=
  (List.range (scanN st)).filter (fun i => st.clicIpe.testBit i)

/-- Arbitration rank of a CLIC interrupt: target mode in the
most-significant part, clicintctl below. -/
def clicRank (st : Riscv) (intIndex : Nat) : Nat :=
  (getCLICInterruptMode st intIndex <<< 8) ||| (st.clicIntState intIndex).ctl

/-- One step of the CLIC arbitration scan (highest-numbered interrupt
wins in a tie). -/
def clicScanStep (st : Riscv) (acc : Nat × Int) (j : Nat) : Nat × Int :=
  if acc.1 ≤ clicRank st j then (clicRank st j, (j : Int)) else acc

/-- Interrupt level presented for a winning interrupt: clicintctl with
the bits below the nlbits most-significant bits forced to one. -/
def clicLevel (nlbits ctl : Nat) : Nat :=
  let lowMask := 2 ^ (8 - nlbits) - 1
  (ctl &&& (255 - lowMask)) ||| lowMask

/-- Should a CLIC interrupt of the given privilege and level be
presented, given the current mode? -/
def presentIntCLIC (st : Riscv) (priv level mode : Nat) : Bool :=
  if priv = RISCV_MODE_MACHINE then
    useCLICM st && st.mstatus.MIE &&
      (decide (mode < RISCV_MODE_MACHINE) ||
        (decide (st.mintstatus.mil < level) && decide (st.mintthresh < level)))
  else if priv = RISCV_MODE_SUPERVISOR then
    useCLICS st && st.mstatus.SIE &&
      (decide (mode < RISCV_MODE_SUPERVISOR) ||
        (decide (st.mintstatus.sil < level) && decide (st.sintthresh < level)))
  else if priv = RISCV_MODE_USER then
    useCLICU st && st.mstatus.UIE &&
      (decide (mode < RISCV_MODE_USER) ||
        (decide (st.mintstatus.uil < level) && decide (st.uintthresh < level)))
  else false

/-- Refresh pending CLIC interrupt state: reset clic.sel, scan ipe for
the largest-rank pending-and-enabled interrupt, record it in clic.sel,
and promote it to pendEnab when the presentation filter passes. -/
def refreshPendingAndEnabledCLIC (st0 : Riscv) : Riscv :=
  let st := { st0 with clicSel := { priv := 0, id := RV_NO_INT, level := 0, shv := false } }
  let scan := (clicCands st).foldl (clicScanStep st) (0, RV_NO_INT)
  let id := scan.2
  if id ≠ RV_NO_INT then
    let idN := id.toNat
    let clicintctl := (st.clicIntState idN).ctl
    let priv := getCLICInterruptMode st idN
    let level := clicLevel st.cliccfg.nlbits clicintctl
    let shv := attrShv (st.clicIntState idN).attr ≠ 0
    let st1 := { st with clicSel := { id := id, priv := priv, level := level, shv := shv } }
    let mode := getCurrentMode st1
    let enable :=
      if priv < st1.pendEnab.priv then false
      else if priv < mode then false
      else presentIntCLIC st1 priv level mode
    if enable then
      { st1 with pendEnab := { id := id, priv := priv, level := level, isCLIC := true } }
    else st1
  else st

/-! ## Arbitration wrapper and interrupt testing -/

/-- Refresh pending interrupt state: reset pendEnab, then run the basic
and CLIC arbiters when present. -/
def refreshPendingAndEnabled (st0 : Riscv) : Riscv :=
  let st := { st0 with pendEnab := { id := RV_NO_INT, priv := 0, level := 0, isCLIC := false } }
  let st := if basicICPresent st then refreshPendingAndEnabledBasic st else st
  if CLICPresent st then refreshPendingAndEnabledCLIC st else st

/-- The pending-and-enabled predicate consulted by the fetch gate. -/
def getPendingAndEnabled (st : Riscv) : Bool :=
  (st.pendEnab.id != RV_NO_INT) && !inDebugMode st && !st.netValue.deferint

/-- Notify a derived model of halt/restart (ghost event counter). -/
def notifyHaltRestart (st : Riscv) : Riscv :=
  { st with haltRestartNotifyCount := st.haltRestartNotifyCount + 1 }

/-- Halt the processor for the given reason. -/
def haltProcessor (st : Riscv) (reason : Nat) : Riscv :=
  let disabled := st.disable ≠ 0
  let st := { st with disable := st.disable ||| reason }
  if disabled then st else notifyHaltRestart st

/-- Restart the processor for the given reason. -/
def restartProcessor (st : Riscv) (reason : Nat) : Riscv :=
  let st := { st with disable := st.disable - (st.disable &&& reason) }
  if st.disable = 0 then notifyHaltRestart st else st

/-- Schedule asynchronous interrupt handling if interrupts are pending
and enabled (vmirtDoSynchronousInterrupt as a ghost event counter). -/
def handlePendingAndEnabled (st : Riscv) : Riscv :=
  if getPendingAndEnabled st then { st with syncIntCount := st.syncIntCount + 1 } else st

/-- Check for pending interrupts: refresh arbitration, restart a
WFI-halted processor when anything is pending, and schedule handling of
pending-and-enabled interrupts. -/
def riscvTestInterrupt (st : Riscv) : Riscv :=
  let st := refreshPendingAndEnabled st
  let st := if getPending st then restartProcessor st RVD_RESTART_WFI else st
  handlePendingAndEnabled st

/-! ## CLIC per-interrupt writes -/

/-- Pointwise update of the per-interrupt state array. -/
def updIntState (f : Nat → CLICIntState) (i : Nat) (r : CLICIntState) : Nat → CLICIntState :=
  fun j => if j = i then r else f j

/-- Update the ipe bitmask when pending+enabled changes for an
interrupt, then re-arbitrate. -/
def updateCLICPendingEnable (st : Riscv) (intIndex : Nat) (newIPE : Bool) : Riscv :=
  let mask := 1 <<< intIndex
  let st :=
    if newIPE then { st with clicIpe := st.clicIpe ||| mask }
    else { st with clicIpe := st.clicIpe - (st.clicIpe &&& mask) }
  riscvTestInterrupt st

/-- Write clicintip for the indexed interrupt. -/
def writeCLICInterruptPending (st : Riscv) (intIndex newValue : Nat) : Riscv :=
  let r := st.clicIntState intIndex
  let oldIE : Bool := r.ie != 0
  let newIP := newValue &&& 1
  let oldIPE := oldIE && (r.ip != 0)
  let st := { st with clicIntState := updIntState st.clicIntState intIndex { r with ip := newIP } }
  let newIPE := oldIE && (newIP != 0)
  if oldIPE != newIPE then updateCLICPendingEnable st intIndex newIPE else st

/-- Write clicintie for the indexed interrupt. -/
def writeCLICInterruptEnable (st : Riscv) (intIndex newValue : Nat) : Riscv :=
  let r := st.clicIntState intIndex
  let oldIP : Bool := r.ip != 0
  let newIE := newValue &&& 1
  let oldIPE := oldIP && (r.ie != 0)
  let st := { st with clicIntState := updIntState st.clicIntState intIndex { r with ie := newIE } }
  let newIPE := oldIP && (newIE != 0)
  if oldIPE != newIPE then updateCLICPendingEnable st intIndex newIPE else st

/-- Update the attr byte for the indexed interrupt and re-arbitrate if it
changed (updateCLICInterruptField for CIT_clicintattr). -/
def updateCLICIntAttrField (st : Riscv) (intIndex v : Nat) : Riscv :=
  if (st.clicIntState intIndex).attr ≠ v then
    riscvTestInterrupt
      { st with clicIntState :=
          updIntState st.clicIntState intIndex { st.clicIntState intIndex with attr := v } }
  else st

/-- Update the ctl byte for the indexed interrupt and re-arbitrate if it
changed (updateCLICInterruptField for CIT_clicintctl). -/
def updateCLICIntCtlField (st : Riscv) (intIndex v : Nat) : Riscv :=
  if (st.clicIntState intIndex).ctl ≠ v then
    riscvTestInterrupt
      { st with clicIntState :=
          updIntState st.clicIntState intIndex { st.clicIntState intIndex with ctl := v } }
  else st

/-- Write clicintattr for the indexed interrupt via the page of the given
mode: clear the WPRI field, drop shv when nvbits is 0, and clamp the
mode field to the page mode when the requested mode is above the page
mode, when CLICCFGMBITS forbids it, when it is the illegal H mode, when
it is S without CLICCFGMBITS at least 2, or when it is U without the N
extension. -/
def writeCLICInterruptAttr (st : Riscv) (intIndex newValue pageMode : Nat) : Riscv :=
  let intMode := attrMode newValue
  let shvBit := if st.cliccfg.nvbits = 0 then 0 else attrShv newValue
  let trigBits := attrTrig newValue
  let CLICCFGMBITS := st.configInfo.CLICCFGMBITS
  let intMode :=
    if pageMode < intMode ∨ CLICCFGMBITS = 0 ∨ intMode = RISCV_MODE_HYPERVISOR ∨
        (CLICCFGMBITS < 2 ∧ intMode = RISCV_MODE_SUPERVISOR) ∨
        (intMode = RISCV_MODE_USER ∧ st.configInfo.arch &&& ISA_N = 0) then
      pageMode
    else intMode
  updateCLICIntAttrField st intIndex (shvBit ||| (trigBits <<< 1) ||| (intMode <<< 6))

/-- Write clicintctl for the indexed interrupt: OR in the always-one
bits (stored as an 8-bit byte). -/
def writeCLICInterruptCtl (st : Riscv) (intIndex newValue : Nat) : Riscv :=
  updateCLICIntCtlField st intIndex ((newValue ||| getCLICIntCtl1Bits st) &&& 255)

/-- Acknowledge a CLIC-sourced interrupt: deassert the pending bit when
edge triggered, otherwise refresh the pending state. -/
def riscvAcknowledgeCLICInt (st : Riscv) (intIndex : Nat) : Riscv :=
  let a := (st.clicIntState intIndex).attr
  if attrTrig a &&& 1 ≠ 0 then writeCLICInterruptPending st intIndex 0
  else refreshPendingAndEnabled st

/-- Update CLIC state on an input signal change. -/
def updateCLICInput (st : Riscv) (intIndex : Nat) (newValue : Bool) : Riscv :=
  let a := (st.clicIntState intIndex).attr
  let isEdge := attrTrig a &&& 1 ≠ 0
  let activeLow := attrTrig a &&& 2 ≠ 0
  let v := xor newValue activeLow
  if ¬ isEdge ∨ v then writeCLICInterruptPending st intIndex (if v then 1 else 0) else st

/-! ## External interrupt interface -/

/-- Update interrupt state after a pending-source change: recompose mip
from the wire and software bitmaps and re-arbitrate on a change. -/
def riscvUpdatePending (st : Riscv) : Riscv :=
  let oldValue := st.mip &&& allOnes64
  let newValue := (st.ip ||| st.swip) &&& allOnes64
  if oldValue ≠ newValue then riscvTestInterrupt { st with mip := newValue } else st

/-- Generic interrupt net-port callback. -/
def interruptPortCB (st : Riscv) (index : Nat) (newValue : Bool) : Riscv :=
  let mask := 1 <<< index
  let st :=
    if newValue then { st with ip := st.ip ||| mask }
    else { st with ip := st.ip - (st.ip &&& mask) }
  let st := if CLICPresent st then updateCLICInput st index newValue else st
  if basicICPresent st then riscvUpdatePending st else st

/-! ## Debug mode entry -/

/-- Update the Debug-mode stalled state. -/
def updateDMStall (st : Riscv) (DMStall : Bool) : Riscv :=
  if st.configInfo.debug_mode = RVDM_HALT then
    let st := { st with DMStall := DMStall }
    if DMStall then haltProcessor st RVD_DEBUG else restartProcessor st RVD_DEBUG
  else st

/-- Enter Debug mode (or re-enter when already in it). -/
def enterDM (st : Riscv) (cause : Nat) : Riscv :=
  let DM := inDebugMode st
  let st :=
    if DM = false then
      let st := { st with DM := true }
      let st := { st with dcsr := { st.dcsr with prv := getCurrentMode st, cause := cause } }
      let st := { st with dpc := getEPC st }
      riscvSetMode st RISCV_MODE_MACHINE
    else st
  if st.configInfo.debug_mode = RVDM_INTERRUPT then
    { st with simInterruptCount := st.simInterruptCount + 1 }
  else if st.configInfo.debug_mode = RVDM_VECTOR then
    { st with pc := if DM then st.configInfo.dexc_address else st.configInfo.debug_address }
  else updateDMStall st true

/-- riscvTakeException taken while in Debug mode: terminate the program
buffer and re-enter Debug mode with cause NONE. -/
def takeExceptionDM (st : Riscv) : Riscv :=
  enterDM { st with abortRepeatCount := st.abortRepeatCount + 1 } DMC_NONE

/-! ## Trap engine -/

/-- Target mode X of a trap: exceptions via medeleg/sedeleg, CLIC
interrupts from the pending selection, basic interrupts via
mideleg/sideleg. -/
def targetModeOf (st : Riscv) (exception : Nat) : Nat :=
  if isInterrupt exception = false then getExceptionModeX st (getExceptionCode exception)
  else if st.pendEnab.isCLIC then st.pendEnab.priv
  else getInterruptModeX st (getExceptionCode exception)

/-- Code reported in xcause: for external interrupts, a latched non-zero
per-mode override ID replaces the architectural code. -/
def reportedCode (st : Riscv) (exception : Nat) : Nat :=
  let ecode := getExceptionCode exception
  if isExternalInterrupt exception then
    let offset := exception - riscv_E_ExternalInterrupt
    if st.extInt offset ≠ 0 then st.extInt offset else ecode
  else ecode

/-- Result of the TARGET_MODE_X macro: updated state plus the handler
base address and the interrupt mode of the target tvec. -/
structure TargetModeOut where
  st : Riscv
  base : Nat
  imode : Nat

/-- Update exception state when taking a trap to mode X (TARGET_MODE_X):
push the interrupt-enable stack, write xcause, xepc (masked to its
writable bits) and xtval, fetch the handler base and mode from xtvec,
and update the interrupt level when one is supplied. -/
def targetModeX (st : Riscv) (X : Nat) (isInt : Bool) (ecodeMod EPC tval : Nat)
    (level : Int) : TargetModeOut :=
  let IE := getXIE st X
  let IL := getXil st X
  let st := setXPIE st X IE
  let st := setXIE st X false
  let st := setXcause st X
    (if useCLICM st then getXcause st X
     else { ExceptionCode := 0, Interrupt := false, pil := 0, inhv := false })
  let c := getXcause st X
  let st := setXcause st X { c with ExceptionCode := ecodeMod, Interrupt := isInt, pil := IL }
  let epcMask := getXepcMask st X
  let st := setXepc st X (EPC &&& epcMask)
  let st := setXtval st X tval
  let base := (getXtvec st X).BASE <<< 2
  let imode := getIMode (getXIMode st X) (getXtvec st X).MODE
  let st := setXil st X (if 0 ≤ level then level.toNat else getXil st X)
  { st := st, base := base, imode := imode }

/-- Intermediate result of trap delivery just before the handler PC is
chosen. -/
structure DeliverMid where
  st : Riscv
  modeX : Nat
  base : Nat
  imode : Nat
  isInt : Bool
  shv : Bool
  ecode : Nat
  ecodeMod : Nat

/-- Trap delivery up to and including the privilege switch: adjust the
retired-instruction base, latch access-fault detail, clear the exclusive
reservation, compute the target mode, level and trap value, apply
TARGET_MODE_X plus the SPP/MPP write, switch mode and record the taken
exception. -/
def deliverMid (st0 : Riscv) (exception tval0 : Nat) : DeliverMid :=
  let shv := st0.clicSel.shv
  let isInt := isInterrupt exception
  let ecode := getExceptionCode exception
  let EPC := getEPC st0
  let modeY := getCurrentMode st0
  let st1 := { st0 with
    baseInstructions :=
      if retiredCode st0 exception = false ∧ riscvInhibitInstret st0 = false then
        st0.baseInstructions + 1
      else st0.baseInstructions }
  let st2 := { st1 with
    AFErrorOut := if accessFaultCode exception then st1.AFErrorIn else riscv_AFault_None }
  let st3 := clearEA st2
  let modeX := targetModeOf st0 exception
  let ecodeMod := reportedCode st0 exception
  let level : Int :=
    if isInt then (st0.pendEnab.level : Int)
    else if modeX ≠ modeY then 0
    else -1
  let tval := if st0.configInfo.tval_zero then 0 else tval0
  let r := targetModeX st3 modeX isInt ecodeMod EPC tval level
  let st4 := r.st
  let st5 :=
    if modeX = RISCV_MODE_USER then st4
    else if modeX = RISCV_MODE_SUPERVISOR then
      { st4 with mstatus := { st4.mstatus with SPP := modeY } }
    else { st4 with mstatus := { st4.mstatus with MPP := modeY } }
  let st6 := riscvSetMode st5 modeX
  let st7 := { st6 with exception := exception }
  { st := st7, modeX := modeX, base := r.base, imode := r.imode,
    isInt := isInt, shv := shv, ecode := ecode, ecodeMod := ecodeMod }

/-- Set the address at which to execute and notify trap observers
(vmirtSetPCException plus the extCBs loop as a ghost counter). -/
def setPCNotify (st : Riscv) (handlerPC : Nat) : Riscv :=
  { st with pc := handlerPC, trapNotifyCount := st.trapNotifyCount + 1 }

/-- XLEN-sized word read from the hart data domain at an address
(vmirtRead4ByteDomain / vmirtRead8ByteDomain). -/
def readWord (st : Riscv) (address : Nat) : Nat := st.vecMem address % 2 ^ st.xlen

/-- Tail of the CLIC SHV vector fetch once the read has completed
without (or after) a trap: mask the low bit off the table entry, and
when the recorded exception is still an interrupt clear xcause.inhv and
redirect to the fetched handler (readCLICVectorTableEntry returning into
GET_CLIC_VECTORED_HANDLER_PC). -/
def shvSuccessTail (st : Riscv) (modeX addr : Nat) : Riscv :=
  let value := clearBit0 (readWord st addr)
  if isInterrupt st.exception then setPCNotify (setXcauseInhv st modeX false) value
  else st

/-- Trap delivery without vector-fault handling, used for the nested
delivery of the secondary exception raised by a faulting vector-table
read (a synchronous exception never reaches the SHV branch, so the
distinction is unreachable there). -/
def deliverNoVF (st0 : Riscv) (exception tval0 : Nat) : Riscv :=
  let m := deliverMid st0 exception tval0
  if m.imode = riscv_int_Direct ∨ m.isInt = false then setPCNotify m.st m.base
  else if m.imode ≠ riscv_int_CLIC then setPCNotify m.st (m.base + 4 * m.ecode)
  else if m.shv = false then setPCNotify m.st (m.base / 64 * 64)
  else
    let st8 := riscvAcknowledgeCLICInt m.st m.ecode
    let st9 := setXcauseInhv st8 m.modeX true
    let addr := getXtvt st9 m.modeX + st9.xlen / 8 * m.ecodeMod
    shvSuccessTail st9 m.modeX addr

/-- Secondary exception raised while reading the vector table
(riscvRdAbortExcept leading to riscvTakeMemoryException): force vstart
to zero, let fault-only-first suppress the trap, otherwise deliver the
memory exception (re-entering Debug mode if the hart is in it). -/
def riscvTakeMemoryExceptionNested (st : Riscv) (exception tval : Nat) : Riscv :=
  let st := { st with vstart := st.vstart &&& st.vstartMask }
  if st.vFirstFault then
    let st := { st with vFirstFault := false }
    if st.vstart ≠ 0 then { st with vl := st.vstart }
    else if inDebugMode st then takeExceptionDM st else deliverNoVF st exception tval
  else if inDebugMode st then takeExceptionDM st else deliverNoVF st exception tval

/-- Full trap delivery (the not-in-Debug-mode body of
riscvTakeException): choose the handler PC directly, vectored, CLIC
non-SHV aligned, or through the CLIC SHV vector table; a trap raised by
the table read itself supersedes the original interrupt. -/
def deliver (st0 : Riscv) (exception tval0 : Nat) : Riscv :=
  let m := deliverMid st0 exception tval0
  if m.imode = riscv_int_Direct ∨ m.isInt = false then setPCNotify m.st m.base
  else if m.imode ≠ riscv_int_CLIC then setPCNotify m.st (m.base + 4 * m.ecode)
  else if m.shv = false then setPCNotify m.st (m.base / 64 * 64)
  else
    let st8 := riscvAcknowledgeCLICInt m.st m.ecode
    let st9 := setXcauseInhv st8 m.modeX true
    let addr := getXtvt st9 m.modeX + st9.xlen / 8 * m.ecodeMod
    match st9.vecFault addr with
    | some et => shvSuccessTail (riscvTakeMemoryExceptionNested st9 et.1 et.2) m.modeX addr
    | none => shvSuccessTail st9 m.modeX addr

/-- Take a processor exception: in Debug mode, abort any repeat and
re-enter Debug mode; otherwise deliver the trap. -/
def riscvTakeException (st : Riscv) (exception tval : Nat) : Riscv :=
  if inDebugMode st then takeExceptionDM st else deliver st exception tval

/-- Does this delivery reach a CLIC SHV vector-table read that faults?
The read address only depends on fields the delivery never writes, so it
can be computed from the pre-state. -/
def vecFaultPath (st : Riscv) (exception : Nat) : Bool :=
  let X := targetModeOf st exception
  let im := getIMode (getXIMode st X) (getXtvec st X).MODE
  isInterrupt exception && decide (im = riscv_int_CLIC) && st.clicSel.shv &&
    (st.vecFault (getXtvt st X + st.xlen / 8 * reportedCode st exception)).isSome

/-! ## Return engine -/

/-- Modelled from the spec: riscvHasMode (riscvUtils): M is always
implemented, S and U when their architecture bits are set. -/
def riscvHasMode (st : Riscv) (m : Nat) : Bool :=
  if m = RISCV_MODE_MACHINE then true
  else if m = RISCV_MODE_SUPERVISOR then st.configInfo.arch &&& ISA_S ≠ 0
  else if m = RISCV_MODE_USER then st.configInfo.arch &&& ISA_U ≠ 0
  else false

/-- Modelled from the spec: riscvGetMinMode (riscvUtils) returns the
lowest implemented mode. -/
def riscvGetMinMode (st : Riscv) : Nat :=
  if st.configInfo.arch &&& ISA_U ≠ 0 then RISCV_MODE_USER
  else if st.configInfo.arch &&& ISA_S ≠ 0 then RISCV_MODE_SUPERVISOR
  else RISCV_MODE_MACHINE

/-- Check that a return target mode is implemented, else fall back to the
minimum implemented mode. -/
def getERETMode (st : Riscv) (newMode minMode : Nat) : Nat :=
  if riscvHasMode st newMode then newMode else minMode

/-- From version 1.12, MRET and SRET clear MPRV when leaving M-mode for a
less privileged mode. -/
def clearMPRV (st : Riscv) (newMode : Nat) : Riscv :=
  if RVPV_20190405 < st.configInfo.priv_version ∧ newMode ≠ RISCV_MODE_MACHINE then
    { st with mstatus := { st.mstatus with MPRV := false } }
  else st

/-- Jump to an exception return address, masked to 32-bit alignment when
compressed instructions are not currently enabled. -/
def setPCxRET (st : Riscv) (newPC : Nat) : Riscv :=
  if st.currentArch &&& ISA_C = 0 then { st with pc := newPC / 4 * 4 }
  else { st with pc := newPC }

/-- Notify a derived model of exception return (ghost event counter). -/
def notifyERETDerived (st : Riscv) : Riscv :=
  { st with eretNotifyCount := st.eretNotifyCount + 1 }

/-- Common actions when returning from an exception: switch mode, jump to
the return address, notify observers and re-test interrupts. -/
def doERETCommon (st : Riscv) (newMode epc : Nat) : Riscv :=
  let st := riscvSetMode st newMode
  let st := setPCxRET st epc
  let st := notifyERETDerived st
  riscvTestInterrupt st

/-- Return from M-mode exception (a NOP in Debug mode). -/
def riscvMRET (st : Riscv) : Riscv :=
  if inDebugMode st then st
  else
    let MPP := st.mstatus.MPP
    let minMode := riscvGetMinMode st
    let newMode := getERETMode st MPP minMode
    let st := clearEAxRET st
    let st :=
      if useCLICM st then { st with mintstatus := { st.mintstatus with mil := st.mcause.pil } }
      else st
    let st := { st with mstatus := { st.mstatus with MIE := st.mstatus.MPIE } }
    let st := { st with mstatus := { st.mstatus with MPIE := true } }
    let st := { st with mstatus := { st.mstatus with MPP := minMode } }
    let st := clearMPRV st newMode
    doERETCommon st newMode st.mepc

/-- Return from S-mode exception (a NOP in Debug mode). -/
def riscvSRET (st : Riscv) : Riscv :=
  if inDebugMode st then st
  else
    let SPP := st.mstatus.SPP
    let minMode := riscvGetMinMode st
    let newMode := getERETMode st SPP minMode
    let st := clearEAxRET st
    let st :=
      if useCLICS st then { st with mintstatus := { st.mintstatus with sil := st.scause.pil } }
      else st
    let st := { st with mstatus := { st.mstatus with SIE := st.mstatus.SPIE } }
    let st := { st with mstatus := { st.mstatus with SPIE := true } }
    let st := { st with mstatus := { st.mstatus with SPP := minMode } }
    let st := clearMPRV st newMode
    doERETCommon st newMode st.sepc

/-- Return from U-mode exception (a NOP in Debug mode). -/
def riscvURET (st : Riscv) : Riscv :=
  if inDebugMode st then st
  else
    let newMode := RISCV_MODE_USER
    let st := clearEAxRET st
    let st :=
      if useCLICU st then { st with mintstatus := { st.mintstatus with uil := st.ucause.pil } }
      else st
    let st := { st with mstatus := { st.mstatus with UIE := st.mstatus.UPIE } }
    let st := { st with mstatus := { st.mstatus with UPIE := true } }
    doERETCommon st newMode st.uepc

/-! ## NMI -/

/-- Modelled from the spec: a whole-register cause write decomposes into
the cause fields, xcause = (isInt shifted to the top bit) or-ed with the
code, with the CLIC pil byte at bits 23:16 and inhv at bit 30. -/
def causeOfValue (xlen v : Nat) : Xcause :=
  { ExceptionCode := v % 2 ^ 12, Interrupt := v.testBit (xlen - 1),
    pil := v >>> 16 &&& 255, inhv := v.testBit 30 }

/-- Do the NMI interrupt: restart the hart, switch to Machine mode, write
mcause and mepc, clear the recorded exception and redirect to the
configured NMI address (mstatus is not touched). -/
def doNMI (st : Riscv) : Riscv :=
  let st := restartProcessor st RVD_RESTART_NMI
  let st := riscvSetMode st RISCV_MODE_MACHINE
  let st := { st with mcause := causeOfValue st.xlen st.configInfo.ecode_nmi }
  let st := { st with mepc := getEPC st }
  let st := { st with exception := 0 }
  { st with pc := st.configInfo.nmi_address }

/-- NMI net-port callback: act on a rising edge unless in Debug mode,
and always mirror the wire into dcsr.nmip and the input latch. -/
def nmiPortCB (st : Riscv) (newValue : Bool) : Riscv :=
  let oldValue := st.netValue.nmi
  let st :=
    if inDebugMode st = false ∧ oldValue = false ∧ newValue = true then doNMI st else st
  let st := { st with dcsr := { st.dcsr with nmip := newValue } }
  { st with netValue := { st.netValue with nmi := newValue } }

/-! ## Save/restore -/

/-- The persisted net state blob: pending wires, latched inputs, the
basic-controller trace record, cliccfg and the CLIC per-interrupt
state. -/
structure NetBlob where
  ip : Nat
  netValue : NetValue
  intStateTrace : Nat
  cliccfg : CLICcfg
  clicIntState : Nat → CLICIntState

/-- Save net state not covered by the register read/write API. -/
def riscvNetSave (st : Riscv) : NetBlob :=
  { ip := st.ip, netValue := st.netValue, intStateTrace := st.intStateTrace,
    cliccfg := st.cliccfg, clicIntState := st.clicIntState }

/-- Pending-and-enabled bitmask freshly recomputed from a per-interrupt
state array: bit i is set iff interrupt i is both pending and enabled. -/
def freshIPE (f : Nat → CLICIntState) : Nat → Nat
  | 0 => 0
  | n + 1 => freshIPE f n ||| (if (f n).ip ≠ 0 ∧ (f n).ie ≠ 0 then 1 <<< n else 0)

/-- Refresh the CLIC pending+enable mask from the per-interrupt state. -/
def refreshCLICIPE (st : Riscv) : Riscv :=
  { st with clicIpe := freshIPE st.clicIntState (getIntNum st) }

/-- Restore net state from a blob, up to but excluding the final
interrupt re-test. -/
def riscvNetRestorePre (st : Riscv) (blob : NetBlob) : Riscv :=
  let st := { st with ip := blob.ip }
  let st := { st with netValue := blob.netValue }
  let st := if basicICPresent st then { st with intStateTrace := blob.intStateTrace } else st
  if CLICPresent st then
    refreshCLICIPE { st with cliccfg := blob.cliccfg, clicIntState := blob.clicIntState }
  else st

/-- Restore net state from a blob and re-run the interrupt test. -/
def riscvNetRestore (st : Riscv) (blob : NetBlob) : Riscv :=
  riscvTestInterrupt (riscvNetRestorePre st blob)

/-! ## Statement helpers -/

/-- Ordering on basic-arbiter candidates: target privilege first, then
the fixed priority table. -/
def selLE (a b : PendEnab) : Prop :=
  a.priv < b.priv ∨ (a.priv = b.priv ∧ getIntPri a.id.toNat ≤ getIntPri b.id.toNat)

/-- Dominance of the selected basic-mode interrupt over a candidate id:
strictly higher target mode, or equal target mode and at least as high a
fixed priority. -/
def basicKeyLE (st : Riscv) (j : Nat) (sel : PendEnab) : Prop :=
  getInterruptModeX st j < sel.priv ∨
    (getInterruptModeX st j = sel.priv ∧ getIntPri j ≤ getIntPri sel.id.toNat)

/-- The pendEnab reset record written at the head of
refreshPendingAndEnabled. -/
def arbInit : PendEnab := { id := RV_NO_INT, priv := 0, level := 0, isCLIC := false }

/-- The hart state after refreshPendingAndEnabled resets pendEnab. -/
def arbReset (st : Riscv) : Riscv := { st with pendEnab := arbInit }

/-! ## Concrete example states (used by witnesses and counterexamples) -/

/-- A concrete hart configuration. -/
def exampleConfig : ConfigInfo :=
  { tval_zero := false, tval_ii_code := false, ecode_nmi := 0, reset_address := 0,
    nmi_address := 256, debug_address := 512, dexc_address := 768, debug_mode := 0,
    priv_version := RVPV_1_11, xret_preserves_lr := false, arch := ISA_U ||| ISA_S ||| ISA_N,
    local_int_num := 16, external_int_id := true, CLICCFGMBITS := 2, CLICSELHVEC := 1,
    CLICINTCTLBITS := 8, unimp_int_mask := 0 }

/-- A concrete hart state: user mode, machine timer interrupt pending and
enabled, direct mtvec at 0x80000000. -/
def exampleState : Riscv :=
  { configInfo := exampleConfig, mode := 0, DM := false, DMStall := false, disable := 0,
    pc := 4096, jumpBase := 0, dsOffset := 0, currentArch := ISA_C,
    mstatus := { MIE := true, SIE := false, UIE := false, MPIE := false, SPIE := false,
                 UPIE := false, MPP := 0, SPP := 0, MPRV := false },
    mcause := { ExceptionCode := 0, Interrupt := false, pil := 0, inhv := false },
    scause := { ExceptionCode := 0, Interrupt := false, pil := 0, inhv := false },
    ucause := { ExceptionCode := 0, Interrupt := false, pil := 0, inhv := false },
    mepc := 0, sepc := 0, uepc := 0, mepcMask := allOnes64, sepcMask := allOnes64,
    uepcMask := allOnes64, mtval := 0, stval := 0, utval := 0,
    mtvec := { BASE := 536870912, MODE := 0 }, stvec := { BASE := 0, MODE := 0 },
    utvec := { BASE := 0, MODE := 0 }, MIMode := 0, SIMode := 0, UIMode := 0,
    mtvt := 16384, stvt := 0, utvt := 0,
    mintstatus := { mil := 0, sil := 0, uil := 0 }, mintthresh := 0, sintthresh := 0,
    uintthresh := 0, mideleg := 0, sideleg := 0, medeleg := 0, sedeleg := 0,
    mip := 2 ^ 7, mie := 2 ^ 7, mcountinhibitIR := false, baseInstructions := 0,
    baseCycles := 0, instretRaw := 10, exclusiveTag := 5, exception := 0,
    AFErrorIn := 0, AFErrorOut := 0,
    pendEnab := { id := 7, priv := 3, level := 0, isCLIC := false },
    clicSel := { id := RV_NO_INT, priv := 0, level := 0, shv := false },
    cliccfg := { nmbits := 0, nlbits := 0, nvbits := 1 },
    clicIntState := fun _ => { ip := 0, ie := 0, attr := 192, ctl := 255 },
    clicIpe := 0, ip := 0, swip := 0, extInt := fun _ => 0,
    netValue := { reset := false, nmi := false, haltreq := false, resethaltreq := false,
                  resethaltreqS := false, deferint := false },
    dcsr := { prv := 0, cause := 0, step := false, ebreaku := false, ebreaks := false,
              ebreakm := false, stopcount := false, nmip := false },
    dpc := 0, vFirstFault := false, vstart := 0, vstartMask := 0, vl := 0,
    useCLICMFlag := false, useCLICSFlag := false, useCLICUFlag := false,
    basicICFlag := true, clicFlag := false, xlen := 32,
    vecMem := fun _ => 0, vecFault := fun _ => none,
    trapNotifyCount := 0, eretNotifyCount := 0, haltRestartNotifyCount := 0,
    syncIntCount := 0, abortRepeatCount := 0, simInterruptCount := 0, intStateTrace := 0 }

/-- Example state in Debug mode. -/
def exampleStateDM : Riscv := { exampleState with DM := true }

/-- Example state for the clicintattr write: quiescent CLIC state with a
stored attr of 0 (mode U) for every interrupt. -/
def exampleStateAttr : Riscv :=
  { exampleState with
      clicIntState := fun _ => { ip := 0, ie := 0, attr := 0, ctl := 0 },
      basicICFlag := false }

/-- Example state for the external-interrupt override: the M-mode
external-interrupt ID port has latched the value 99. -/
def exampleStateExt : Riscv :=
  { exampleState with
      extInt := fun m => if m = 3 then 99 else 0,
      pendEnab := { id := 11, priv := 3, level := 0, isCLIC := false },
      mip := 2 ^ 11, mie := 2 ^ 11 }

/-- Example state for CLIC arbitration: interrupts 3 and 9 pending and
enabled with equal rank, interrupt 40 idle. -/
def exampleStateCLIC : Riscv :=
  { exampleState with
      mode := 3, basicICFlag := false, clicFlag := true, useCLICMFlag := true,
      mtvec := { BASE := 536870912, MODE := 3 },
      cliccfg := { nmbits := 0, nlbits := 2, nvbits := 1 },
      clicIntState := fun i =>
        if i = 3 ∨ i = 9 then { ip := 1, ie := 1, attr := 192, ctl := 176 }
        else { ip := 0, ie := 0, attr := 192, ctl := 0 },
      clicIpe := 2 ^ 3 ||| 2 ^ 9 }

/-- Example state for a CLIC SHV delivery: interrupt 40 pending at level
200, vector table at mtvt = 16384 holding handler 0x80001235. -/
def exampleStateSHV : Riscv :=
  { exampleState with
      mode := 3, basicICFlag := false, clicFlag := true, useCLICMFlag := true,
      mtvec := { BASE := 536870912, MODE := 3 },
      cliccfg := { nmbits := 0, nlbits := 8, nvbits := 1 },
      clicSel := { id := 40, priv := 3, level := 200, shv := true },
      pendEnab := { id := 40, priv := 3, level := 200, isCLIC := true },
      clicIntState := fun i =>
        if i = 40 then { ip := 1, ie := 1, attr := 193, ctl := 200 }
        else { ip := 0, ie := 0, attr := 192, ctl := 255 },
      clicIpe := 2 ^ 40,
      vecMem := fun a => if a = 16544 then 2147488309 else 0 }

/-- Example state for the basic arbiter: MTI and STI pending, STI
delegated to S mode. -/
def exampleStateArb : Riscv :=
  { exampleState with
      mode := 0, mip := 2 ^ 7 ||| 2 ^ 5, mie := 2 ^ 7 ||| 2 ^ 5, mideleg := 2 ^ 5,
      mstatus := { exampleState.mstatus with MIE := true, SIE := true } }

/-! ## Frame lemmas for the re-arbitration chain

Each function in the riscvTestInterrupt chain only writes a known small
set of fields; the lemmas below express every such function as a record
update of its argument, so that projections of all other fields rewrite
away. -/

theorem refreshPendingAndEnabledBasic_frame (st : Riscv) :
    ∃ a, refreshPendingAndEnabledBasic st = { st with pendEnab := a } := by
  unfold refreshPendingAndEnabledBasic
  split
  · exact ⟨_, rfl⟩
  · exact ⟨st.pendEnab, rfl⟩

theorem refreshPendingAndEnabledCLIC_frame (st : Riscv) :
    ∃ a b, refreshPendingAndEnabledCLIC st = { st with pendEnab := a, clicSel := b } := by
  simp only [refreshPendingAndEnabledCLIC]
  repeat' split
  all_goals first
    | exact ⟨_, _, rfl⟩
    | exact ⟨st.pendEnab, _, rfl⟩

theorem refreshPendingAndEnabled_frame (st : Riscv) :
    ∃ a b, refreshPendingAndEnabled st = { st with pendEnab := a, clicSel := b } := by
  simp only [refreshPendingAndEnabled]
  split
  · obtain ⟨a1, h1⟩ := refreshPendingAndEnabledBasic_frame
      { st with pendEnab := { id := RV_NO_INT, priv := 0, level := 0, isCLIC := false } }
    rw [h1]
    split
    · obtain ⟨a2, b2, h2⟩ := refreshPendingAndEnabledCLIC_frame _
      rw [h2]
      exact ⟨_, _, rfl⟩
    · exact ⟨_, st.clicSel, rfl⟩
  · split
    · obtain ⟨a2, b2, h2⟩ := refreshPendingAndEnabledCLIC_frame _
      rw [h2]
      exact ⟨_, _, rfl⟩
    · exact ⟨_, st.clicSel, rfl⟩

theorem restartProcessor_frame (st : Riscv) (reason : Nat) :
    ∃ d h, restartProcessor st reason = { st with disable := d, haltRestartNotifyCount := h } := by
  simp only [restartProcessor, notifyHaltRestart]
  split
  · exact ⟨_, _, rfl⟩
  · exact ⟨_, st.haltRestartNotifyCount, rfl⟩

theorem haltProcessor_frame (st : Riscv) (reason : Nat) :
    ∃ d h, haltProcessor st reason = { st with disable := d, haltRestartNotifyCount := h } := by
  simp only [haltProcessor, notifyHaltRestart]
  split
  · exact ⟨_, st.haltRestartNotifyCount, rfl⟩
  · exact ⟨_, _, rfl⟩

theorem handlePendingAndEnabled_frame (st : Riscv) :
    ∃ s, handlePendingAndEnabled st = { st with syncIntCount := s } := by
  simp only [handlePendingAndEnabled]
  split
  · exact ⟨_, rfl⟩
  · exact ⟨st.syncIntCount, rfl⟩

theorem riscvTestInterrupt_frame (st : Riscv) :
    ∃ a b d h s, riscvTestInterrupt st =
      { st with pendEnab := a, clicSel := b, disable := d,
                haltRestartNotifyCount := h, syncIntCount := s } := by
  simp only [riscvTestInterrupt]
  obtain ⟨a, b, h1⟩ := refreshPendingAndEnabled_frame st
  rw [h1]
  split
  · obtain ⟨d, hr, h2⟩ := restartProcessor_frame _ RVD_RESTART_WFI
    rw [h2]
    obtain ⟨s, h3⟩ := handlePendingAndEnabled_frame _
    rw [h3]
    exact ⟨_, _, _, _, _, rfl⟩
  · obtain ⟨s, h3⟩ := handlePendingAndEnabled_frame _
    rw [h3]
    exact ⟨a, b, st.disable, st.haltRestartNotifyCount, s, rfl⟩

theorem updateCLICPendingEnable_frame (st : Riscv) (intIndex : Nat) (newIPE : Bool) :
    ∃ a b d h s i, updateCLICPendingEnable st intIndex newIPE =
      { st with pendEnab := a, clicSel := b, disable := d,
                haltRestartNotifyCount := h, syncIntCount := s, clicIpe := i } := by
  simp only [updateCLICPendingEnable]
  split
  · obtain ⟨a, b, d, h, s, h1⟩ := riscvTestInterrupt_frame _
    rw [h1]
    exact ⟨_, _, _, _, _, _, rfl⟩
  · obtain ⟨a, b, d, h, s, h1⟩ := riscvTestInterrupt_frame _
    rw [h1]
    exact ⟨_, _, _, _, _, _, rfl⟩

theorem writeCLICInterruptPending_frame (st : Riscv) (intIndex newValue : Nat) :
    ∃ a b d h s i f, writeCLICInterruptPending st intIndex newValue =
      { st with pendEnab := a, clicSel := b, disable := d, haltRestartNotifyCount := h,
                syncIntCount := s, clicIpe := i, clicIntState := f } := by
  simp only [writeCLICInterruptPending]
  split
  · obtain ⟨a, b, d, h, s, i, h1⟩ := updateCLICPendingEnable_frame _ intIndex _
    rw [h1]
    exact ⟨_, _, _, _, _, _, _, rfl⟩
  · exact ⟨st.pendEnab, st.clicSel, st.disable, st.haltRestartNotifyCount,
      st.syncIntCount, st.clicIpe, _, rfl⟩

theorem riscvAcknowledgeCLICInt_frame (st : Riscv) (intIndex : Nat) :
    ∃ a b d h s i f, riscvAcknowledgeCLICInt st intIndex =
      { st with pendEnab := a, clicSel := b, disable := d, haltRestartNotifyCount := h,
                syncIntCount := s, clicIpe := i, clicIntState := f } := by
  simp only [riscvAcknowledgeCLICInt]
  split
  · exact writeCLICInterruptPending_frame st intIndex 0
  · obtain ⟨a, b, h1⟩ := refreshPendingAndEnabled_frame st
    rw [h1]
    exact ⟨a, b, st.disable, st.haltRestartNotifyCount, st.syncIntCount,
      st.clicIpe, st.clicIntState, rfl⟩

theorem updateCLICInput_frame (st : Riscv) (intIndex : Nat) (newValue : Bool) :
    ∃ a b d h s i f, updateCLICInput st intIndex newValue =
      { st with pendEnab := a, clicSel := b, disable := d, haltRestartNotifyCount := h,
                syncIntCount := s, clicIpe := i, clicIntState := f } := by
  simp only [updateCLICInput]
  split
  · exact writeCLICInterruptPending_frame st intIndex _
  · exact ⟨st.pendEnab, st.clicSel, st.disable, st.haltRestartNotifyCount,
      st.syncIntCount, st.clicIpe, st.clicIntState, rfl⟩

theorem riscvUpdatePending_frame (st : Riscv) :
    ∃ a b d h s m, riscvUpdatePending st =
      { st with pendEnab := a, clicSel := b, disable := d, haltRestartNotifyCount := h,
                syncIntCount := s, mip := m } := by
  simp only [riscvUpdatePending]
  split
  · obtain ⟨a, b, d, h, s, h1⟩ := riscvTestInterrupt_frame _
    rw [h1]
    exact ⟨_, _, _, _, _, _, rfl⟩
  · exact ⟨st.pendEnab, st.clicSel, st.disable, st.haltRestartNotifyCount,
      st.syncIntCount, st.mip, rfl⟩

theorem interruptPortCB_frame (st : Riscv) (index : Nat) (newValue : Bool) :
    ∃ a b d h s i f m p, interruptPortCB st index newValue =
      { st with pendEnab := a, clicSel := b, disable := d, haltRestartNotifyCount := h,
                syncIntCount := s, clicIpe := i, clicIntState := f, mip := m, ip := p } := by
  simp only [interruptPortCB]
  split <;> (
    split
    · obtain ⟨a, b, d, h, s, i, f, h1⟩ := updateCLICInput_frame _ index newValue
      rw [h1]
      split
      · obtain ⟨a2, b2, d2, h2, s2, m2, h3⟩ := riscvUpdatePending_frame _
        rw [h3]
        exact ⟨_, _, _, _, _, _, _, _, _, rfl⟩
      · exact ⟨_, _, _, _, _, _, _, _, _, rfl⟩
    · split
      · obtain ⟨a2, b2, d2, h2, s2, m2, h3⟩ := riscvUpdatePending_frame _
        rw [h3]
        exact ⟨_, _, _, _, _, _, _, _, _, rfl⟩
      · exact ⟨_, _, _, _, _, _, _, _, _, rfl⟩)

/-! ## Claim C9: xRET in Debug mode is a no-op -/

/-- C9: if mret, sret or uret is executed while the Debug-Mode flag is
set, the operation is a complete no-op: the post-state equals the
pre-state in every field (privilege mode, PC, mstatus, mintstatus, the
exclusive-reservation tag, and all ghost observer counters included),
so no re-arbitration or observer notification occurs. -/
theorem xretDebugModeNoop (st : Riscv) (h : inDebugMode st = true) :
    riscvMRET st = st ∧ riscvSRET st = st ∧ riscvURET st = st := by
  unfold riscvMRET riscvSRET riscvURET
  rw [h]
  simp

/-- Witness for C9 at a concrete Debug-mode state. -/
theorem xretDebugModeNoop_witness :
    inDebugMode exampleStateDM = true ∧
    (riscvMRET exampleStateDM = exampleStateDM ∧ riscvSRET exampleStateDM = exampleStateDM ∧
      riscvURET exampleStateDM = exampleStateDM) :=
  ⟨rfl, xretDebugModeNoop exampleStateDM rfl⟩

/-! ## Claim C10: NMI rising edge -/

/-- C10: a rising edge on the nmi net while not in Debug-Mode switches
the hart to M-mode, writes mcause = configured ecode_nmi and mepc = the
next instruction address, clears the recorded exception and redirects
the PC to the configured nmi_address, leaving mstatus entirely
unchanged; in Debug-Mode the edge only mirrors the wire into dcsr.nmip
and the input latch. -/
theorem nmiPortCBSpec (st : Riscv) :
    (inDebugMode st = false → st.netValue.nmi = false →
      ((nmiPortCB st true).mode = RISCV_MODE_MACHINE ∧
        (nmiPortCB st true).mcause = causeOfValue st.xlen st.configInfo.ecode_nmi ∧
        (nmiPortCB st true).mepc = getEPC st ∧
        (nmiPortCB st true).exception = 0 ∧
        (nmiPortCB st true).pc = st.configInfo.nmi_address ∧
        (nmiPortCB st true).mstatus = st.mstatus ∧
        (nmiPortCB st true).dcsr.nmip = true ∧
        (nmiPortCB st true).netValue.nmi = true)) ∧
    (inDebugMode st = true → ∀ v : Bool,
      ((nmiPortCB st v).dcsr.nmip = v ∧ (nmiPortCB st v).netValue.nmi = v ∧
        (nmiPortCB st v).mcause = st.mcause ∧ (nmiPortCB st v).mepc = st.mepc ∧
        (nmiPortCB st v).pc = st.pc ∧ (nmiPortCB st v).mode = st.mode ∧
        (nmiPortCB st v).mstatus = st.mstatus ∧ (nmiPortCB st v).exception = st.exception ∧
        (nmiPortCB st v).DM = true)) := by
  constructor
  · intro h1 h2
    have hDM : st.DM = false := h1
    obtain ⟨d, hh, hr⟩ := restartProcessor_frame st RVD_RESTART_NMI
    simp [nmiPortCB, inDebugMode, hDM, h2, doNMI, hr, riscvSetMode, getEPC]
  · intro h1 v
    have hDM : st.DM = true := h1
    simp [nmiPortCB, inDebugMode, hDM]

/-- Witness for C10 at a concrete state with a rising NMI edge. -/
theorem nmiPortCBSpec_witness :
    inDebugMode exampleState = false ∧ exampleState.netValue.nmi = false ∧
    ((nmiPortCB exampleState true).mode = RISCV_MODE_MACHINE ∧
      (nmiPortCB exampleState true).mcause =
        causeOfValue exampleState.xlen exampleState.configInfo.ecode_nmi ∧
      (nmiPortCB exampleState true).mepc = getEPC exampleState ∧
      (nmiPortCB exampleState true).exception = 0 ∧
      (nmiPortCB exampleState true).pc = exampleState.configInfo.nmi_address ∧
      (nmiPortCB exampleState true).mstatus = exampleState.mstatus ∧
      (nmiPortCB exampleState true).dcsr.nmip = true ∧
      (nmiPortCB exampleState true).netValue.nmi = true) :=
  ⟨rfl, rfl, (nmiPortCBSpec exampleState).1 rfl rfl⟩

/-! ## Claim C7: Debug mode blocks interrupts and trap CSR updates -/

/-- Entering Debug mode when the Debug-Mode flag is already set only
touches the PC, the stall flag, the disable mask and ghost counters. -/
theorem enterDM_frame_inDM (st : Riscv) (cause : Nat) (h : st.DM = true) :
    ∃ pcv dms dis hrn sic, enterDM st cause =
      { st with pc := pcv, DMStall := dms, disable := dis, haltRestartNotifyCount := hrn,
                simInterruptCount := sic } := by
  have h0 : (inDebugMode st = false) = False := by simp [inDebugMode, h]
  simp only [enterDM, h0, if_false, updateDMStall]
  repeat' split
  all_goals
    first
      | exact ⟨st.pc, st.DMStall, st.disable, st.haltRestartNotifyCount, _, rfl⟩
      | exact ⟨_, st.DMStall, st.disable, st.haltRestartNotifyCount, st.simInterruptCount, rfl⟩
      | (obtain ⟨d2, h2, hh⟩ := haltProcessor_frame { st with DMStall := true } RVD_DEBUG
         rw [hh]
         exact ⟨st.pc, true, d2, h2, st.simInterruptCount, rfl⟩)
      | (obtain ⟨d2, h2, hh⟩ := restartProcessor_frame { st with DMStall := true } RVD_DEBUG
         rw [hh]
         exact ⟨st.pc, true, d2, h2, st.simInterruptCount, rfl⟩)
      | exact ⟨st.pc, st.DMStall, st.disable, st.haltRestartNotifyCount, st.simInterruptCount, rfl⟩

/-- C7: whenever the Debug-Mode flag is set, the pending-and-enabled
predicate consulted by the fetch gate is false, and remains false after
any externally driven interrupt-wire change; a call to riscvTakeException
keeps the hart in Debug-Mode and leaves mcause, mepc and mtval
unchanged. -/
theorem debugModeBlocks (st : Riscv) (h : inDebugMode st = true) :
    getPendingAndEnabled st = false ∧
    (∀ (index : Nat) (v : Bool), getPendingAndEnabled (interruptPortCB st index v) = false) ∧
    (∀ exception tval : Nat,
      (riscvTakeException st exception tval).DM = true ∧
      (riscvTakeException st exception tval).mcause = st.mcause ∧
      (riscvTakeException st exception tval).mepc = st.mepc ∧
      (riscvTakeException st exception tval).mtval = st.mtval) := by
  have hDM : st.DM = true := h
  refine ⟨?_, ?_, ?_⟩
  · simp [getPendingAndEnabled, inDebugMode, hDM]
  · intro index v
    obtain ⟨a, b, d, hh, s, i, f, m, p, hf⟩ := interruptPortCB_frame st index v
    rw [hf]
    simp [getPendingAndEnabled, inDebugMode, hDM]
  · intro exception tval
    obtain ⟨pcv, dms, dis, hrn, sic, he⟩ := enterDM_frame_inDM
      { st with abortRepeatCount := st.abortRepeatCount + 1 } DMC_NONE hDM
    simp only [hDM] at he
    simp [riscvTakeException, inDebugMode, hDM, takeExceptionDM, he]

/-- Witness for C7 at a concrete Debug-mode state. -/
theorem debugModeBlocks_witness :
    inDebugMode exampleStateDM = true ∧
    (getPendingAndEnabled exampleStateDM = false ∧
      (∀ (index : Nat) (v : Bool),
        getPendingAndEnabled (interruptPortCB exampleStateDM index v) = false) ∧
      (∀ exception tval : Nat,
        (riscvTakeException exampleStateDM exception tval).DM = true ∧
        (riscvTakeException exampleStateDM exception tval).mcause = exampleStateDM.mcause ∧
        (riscvTakeException exampleStateDM exception tval).mepc = exampleStateDM.mepc ∧
        (riscvTakeException exampleStateDM exception tval).mtval = exampleStateDM.mtval)) :=
  ⟨rfl, debugModeBlocks exampleStateDM rfl⟩

/-! ## Claim C4: clicintattr write clamping -/

theorem attrShv_lt (v : Nat) : attrShv v < 2 := by
  have h : v &&& 1 ≤ 1 := Nat.and_le_right
  simp only [attrShv]
  omega

theorem attrTrig_lt (v : Nat) : attrTrig v < 4 := by
  have h : v >>> 1 &&& 3 ≤ 3 := Nat.and_le_right
  simp only [attrTrig]
  omega

theorem attrMode_lt (v : Nat) : attrMode v < 4 := by
  have h : v >>> 6 &&& 3 ≤ 3 := Nat.and_le_right
  simp only [attrMode]
  omega

theorem attrFieldsDecomp (s t m : Nat) (hs : s < 2) (ht : t < 4) (hm : m < 4) :
    attrMode (s ||| t <<< 1 ||| m <<< 6) = m ∧ attrShv (s ||| t <<< 1 ||| m <<< 6) = s := by
  have key : ∀ s' < 2, ∀ t' < 4, ∀ m' < 4,
      attrMode (s' ||| t' <<< 1 ||| m' <<< 6) = m' ∧
        attrShv (s' ||| t' <<< 1 ||| m' <<< 6) = s' := by decide
  exact key s hs t ht m hm

/-- The attr byte stored by updateCLICInterruptField for attr. -/
theorem updateCLICIntAttrField_attr (st : Riscv) (intIndex v : Nat) :
    ((updateCLICIntAttrField st intIndex v).clicIntState intIndex).attr = v := by
  simp only [updateCLICIntAttrField]
  split
  · obtain ⟨a, b, d, h, s, hf⟩ := riscvTestInterrupt_frame _
    rw [hf]
    simp [updIntState]
  · next heq =>
    simp only [ne_eq, not_not] at heq
    exact heq

/-- The attr byte stored by writeCLICInterruptAttr, in closed form. -/
theorem writeCLICInterruptAttr_attr (st : Riscv) (intIndex newValue pageMode : Nat) :
    ((writeCLICInterruptAttr st intIndex newValue pageMode).clicIntState intIndex).attr =
      (if st.cliccfg.nvbits = 0 then 0 else attrShv newValue) |||
        attrTrig newValue <<< 1 |||
        (if pageMode < attrMode newValue ∨ st.configInfo.CLICCFGMBITS = 0 ∨
            attrMode newValue = RISCV_MODE_HYPERVISOR ∨
            (st.configInfo.CLICCFGMBITS < 2 ∧ attrMode newValue = RISCV_MODE_SUPERVISOR) ∨
            (attrMode newValue = RISCV_MODE_USER ∧ st.configInfo.arch &&& ISA_N = 0) then
          pageMode
        else attrMode newValue) <<< 6 := by
  simp only [writeCLICInterruptAttr]
  rw [updateCLICIntAttrField_attr]

/-- C4 (amended): for every write of a CLIC per-interrupt attr byte
through the memory page for mode P, a written mode field higher than P is
clamped: the stored attr.mode becomes P itself (not necessarily the
previously stored mode); additionally shv is forced to 0 when
cliccfg.nvbits = 0, mode H is never stored, mode S is clamped to P when
CLICCFGMBITS < 2, and mode U is clamped to P when the N extension is
absent. -/
theorem writeCLICInterruptAttrSpec (st : Riscv) (intIndex newValue pageMode : Nat)
    (hpm : pageMode = RISCV_MODE_USER ∨ pageMode = RISCV_MODE_SUPERVISOR ∨
      pageMode = RISCV_MODE_MACHINE) :
    (pageMode < attrMode newValue →
      attrMode (((writeCLICInterruptAttr st intIndex newValue pageMode).clicIntState
        intIndex).attr) = pageMode) ∧
    (st.cliccfg.nvbits = 0 →
      attrShv (((writeCLICInterruptAttr st intIndex newValue pageMode).clicIntState
        intIndex).attr) = 0) ∧
    attrMode (((writeCLICInterruptAttr st intIndex newValue pageMode).clicIntState
      intIndex).attr) ≠ RISCV_MODE_HYPERVISOR ∧
    (st.configInfo.CLICCFGMBITS < 2 → attrMode newValue = RISCV_MODE_SUPERVISOR →
      attrMode (((writeCLICInterruptAttr st intIndex newValue pageMode).clicIntState
        intIndex).attr) = pageMode) ∧
    (st.configInfo.arch &&& ISA_N = 0 → attrMode newValue = RISCV_MODE_USER →
      attrMode (((writeCLICInterruptAttr st intIndex newValue pageMode).clicIntState
        intIndex).attr) = pageMode) := by
  rw [writeCLICInterruptAttr_attr]
  have hs : (if st.cliccfg.nvbits = 0 then 0 else attrShv newValue) < 2 := by
    split
    · omega
    · exact attrShv_lt newValue
  have ht := attrTrig_lt newValue
  have hpm4 : pageMode < 4 := by
    rcases hpm with h | h | h <;>
      simp [h, RISCV_MODE_USER, RISCV_MODE_SUPERVISOR, RISCV_MODE_MACHINE]
  have hm : (if pageMode < attrMode newValue ∨ st.configInfo.CLICCFGMBITS = 0 ∨
      attrMode newValue = RISCV_MODE_HYPERVISOR ∨
      (st.configInfo.CLICCFGMBITS < 2 ∧ attrMode newValue = RISCV_MODE_SUPERVISOR) ∨
      (attrMode newValue = RISCV_MODE_USER ∧ st.configInfo.arch &&& ISA_N = 0) then
        pageMode else attrMode newValue) < 4 := by
    split
    · exact hpm4
    · exact attrMode_lt newValue
  obtain ⟨hmode, hshv⟩ := attrFieldsDecomp _ _ _ hs ht hm
  rw [hmode, hshv]
  refine ⟨?_, ?_, ?_, ?_, ?_⟩
  · intro h
    rw [if_pos (Or.inl h)]
  · intro h
    rw [if_pos h]
  · split
    · rcases hpm with h | h | h <;>
        simp [h, RISCV_MODE_USER, RISCV_MODE_SUPERVISOR, RISCV_MODE_MACHINE,
          RISCV_MODE_HYPERVISOR]
    · next hcond =>
      intro hcontra
      exact hcond (Or.inr (Or.inr (Or.inl hcontra)))
  · intro h1 h2
    rw [if_pos (Or.inr (Or.inr (Or.inr (Or.inl ⟨h1, h2⟩))))]
  · intro h1 h2
    rw [if_pos (Or.inr (Or.inr (Or.inr (Or.inr ⟨h2, h1⟩))))]

/-- C4 counterexample: writing attr mode M (value 192) through the
S-mode page over a stored attr.mode of U is not a no-op with respect to
the stored attr.mode: the stored mode becomes S. -/
theorem writeCLICInterruptAttrCex :
    RISCV_MODE_SUPERVISOR < attrMode 192 ∧
    attrMode (((writeCLICInterruptAttr exampleStateAttr 5 192
        RISCV_MODE_SUPERVISOR).clicIntState 5).attr) ≠
      attrMode ((exampleStateAttr.clicIntState 5).attr) := by decide

/-- Witness for C4 at a concrete state and write. -/
theorem writeCLICInterruptAttrSpec_witness :
    (RISCV_MODE_SUPERVISOR = RISCV_MODE_USER ∨ RISCV_MODE_SUPERVISOR = RISCV_MODE_SUPERVISOR ∨
      RISCV_MODE_SUPERVISOR = RISCV_MODE_MACHINE) ∧
    ((RISCV_MODE_SUPERVISOR < attrMode 192 →
      attrMode (((writeCLICInterruptAttr exampleStateAttr 5 192
        RISCV_MODE_SUPERVISOR).clicIntState 5).attr) = RISCV_MODE_SUPERVISOR) ∧
    (exampleStateAttr.cliccfg.nvbits = 0 →
      attrShv (((writeCLICInterruptAttr exampleStateAttr 5 192
        RISCV_MODE_SUPERVISOR).clicIntState 5).attr) = 0) ∧
    attrMode (((writeCLICInterruptAttr exampleStateAttr 5 192
      RISCV_MODE_SUPERVISOR).clicIntState 5).attr) ≠ RISCV_MODE_HYPERVISOR ∧
    (exampleStateAttr.configInfo.CLICCFGMBITS < 2 → attrMode 192 = RISCV_MODE_SUPERVISOR →
      attrMode (((writeCLICInterruptAttr exampleStateAttr 5 192
        RISCV_MODE_SUPERVISOR).clicIntState 5).attr) = RISCV_MODE_SUPERVISOR) ∧
    (exampleStateAttr.configInfo.arch &&& ISA_N = 0 → attrMode 192 = RISCV_MODE_USER →
      attrMode (((writeCLICInterruptAttr exampleStateAttr 5 192
        RISCV_MODE_SUPERVISOR).clicIntState 5).attr) = RISCV_MODE_SUPERVISOR)) :=
  ⟨Or.inr (Or.inl rfl),
    writeCLICInterruptAttrSpec exampleStateAttr 5 192 RISCV_MODE_SUPERVISOR
      (Or.inr (Or.inl rfl))⟩

/-! ## Claim C8: save/restore re-derives the ipe mask -/

/-- Bit i of a freshly recomputed pending+enabled mask is set iff i is a
valid interrupt index whose ip and ie bytes are both non-zero. -/
theorem freshIPE_testBit (f : Nat → CLICIntState) (n i : Nat) :
    (freshIPE f n).testBit i = decide (i < n ∧ (f i).ip ≠ 0 ∧ (f i).ie ≠ 0) := by
  induction n with
  | zero => simp [freshIPE]
  | succ n ih =>
    simp only [freshIPE, Nat.testBit_lor, ih]
    by_cases hin : i = n
    · subst hin
      split
      · next hc =>
        simp [Nat.one_shiftLeft, Nat.testBit_two_pow_self, hc.1, hc.2, Nat.lt_irrefl,
          Nat.lt_succ_self]
      · next hc =>
        simp [Nat.zero_testBit, Nat.lt_irrefl, hc]
    · have hstep : i < n ↔ i < n + 1 := by omega
      split
      · rw [Nat.one_shiftLeft, Nat.testBit_two_pow_of_ne (by omega : n ≠ i)]
        simp only [Bool.or_false]
        rw [decide_eq_decide]
        constructor
        · rintro ⟨ha, hb⟩
          exact ⟨by omega, hb⟩
        · rintro ⟨ha, hb⟩
          exact ⟨by omega, hb⟩
      · simp only [Nat.zero_testBit, Bool.or_false]
        rw [decide_eq_decide]
        constructor
        · rintro ⟨ha, hb⟩
          exact ⟨by omega, hb⟩
        · rintro ⟨ha, hb⟩
          exact ⟨by omega, hb⟩

/-- The restore phase before the final interrupt test: its CLIC
per-interrupt state is the saved one. -/
theorem riscvNetRestorePre_clicIntState (st1 st2 : Riscv) (h2 : CLICPresent st2 = true) :
    (riscvNetRestorePre st2 (riscvNetSave st1)).clicIntState = st1.clicIntState := by
  have hcf : st2.clicFlag = true := h2
  simp only [riscvNetRestorePre, riscvNetSave, refreshCLICIPE, CLICPresent, basicICPresent]
  split <;> simp [hcf]

/-- The restore phase before the final interrupt test: its ipe mask is
freshly recomputed from the saved per-interrupt state. -/
theorem riscvNetRestorePre_clicIpe (st1 st2 : Riscv)
    (hc : st2.configInfo = st1.configInfo) (h2 : CLICPresent st2 = true) :
    (riscvNetRestorePre st2 (riscvNetSave st1)).clicIpe =
      freshIPE st1.clicIntState (getIntNum st1) := by
  have hcf : st2.clicFlag = true := h2
  simp only [riscvNetRestorePre, riscvNetSave, refreshCLICIPE, CLICPresent, basicICPresent,
    getIntNum]
  split <;> simp [hcf, hc]

/-- The restore phase preserves the static configuration. -/
theorem riscvNetRestorePre_configInfo (st1 st2 : Riscv) :
    (riscvNetRestorePre st2 (riscvNetSave st1)).configInfo = st2.configInfo := by
  simp only [riscvNetRestorePre, riscvNetSave, refreshCLICIPE]
  split <;> split <;> simp

/-- C8: saving the CLIC per-interrupt state and restoring it (into any
hart with the same configuration) re-derives an ipe bitmask identical to
one freshly recomputed from the per-interrupt state, with bit i set iff
interrupt i is both pending and enabled, and the restore concludes by
re-running riscvTestInterrupt. -/
theorem riscvNetRestoreRoundtrip (st1 st2 : Riscv)
    (hc : st2.configInfo = st1.configInfo) (h2 : CLICPresent st2 = true) :
    (riscvNetRestore st2 (riscvNetSave st1)).clicIntState = st1.clicIntState ∧
    (riscvNetRestore st2 (riscvNetSave st1)).clicIpe =
      freshIPE (riscvNetRestore st2 (riscvNetSave st1)).clicIntState
        (getIntNum (riscvNetRestore st2 (riscvNetSave st1))) ∧
    (∀ i, ((riscvNetRestore st2 (riscvNetSave st1)).clicIpe.testBit i =
      decide (i < getIntNum st1 ∧ (st1.clicIntState i).ip ≠ 0 ∧
        (st1.clicIntState i).ie ≠ 0))) ∧
    riscvNetRestore st2 (riscvNetSave st1) =
      riscvTestInterrupt (riscvNetRestorePre st2 (riscvNetSave st1)) := by
  obtain ⟨a, b, d, h, s, hf⟩ := riscvTestInterrupt_frame (riscvNetRestorePre st2 (riscvNetSave st1))
  have e1 := riscvNetRestorePre_clicIntState st1 st2 h2
  have e2 := riscvNetRestorePre_clicIpe st1 st2 hc h2
  have e3 := riscvNetRestorePre_configInfo st1 st2
  refine ⟨?_, ?_, ?_, rfl⟩
  · rw [riscvNetRestore, hf]
    exact e1
  · rw [riscvNetRestore, hf]
    show (riscvNetRestorePre st2 (riscvNetSave st1)).clicIpe =
      freshIPE (riscvNetRestorePre st2 (riscvNetSave st1)).clicIntState
        (getIntNum { riscvNetRestorePre st2 (riscvNetSave st1) with
          pendEnab := a, clicSel := b, disable := d, haltRestartNotifyCount := h,
          syncIntCount := s })
    rw [e1, e2]
    have : getIntNum { riscvNetRestorePre st2 (riscvNetSave st1) with
        pendEnab := a, clicSel := b, disable := d, haltRestartNotifyCount := h,
        syncIntCount := s } = getIntNum st1 := by
      simp [getIntNum, e3, hc]
    rw [this]
  · intro i
    rw [riscvNetRestore, hf]
    show (riscvNetRestorePre st2 (riscvNetSave st1)).clicIpe.testBit i = _
    rw [e2, freshIPE_testBit]

/-- Witness for C8 at concrete states with matching configuration. -/
theorem riscvNetRestoreRoundtrip_witness :
    ({ exampleStateCLIC with clicIpe := 0 } : Riscv).configInfo = exampleStateCLIC.configInfo ∧
    CLICPresent { exampleStateCLIC with clicIpe := 0 } = true ∧
    ((riscvNetRestore { exampleStateCLIC with clicIpe := 0 }
        (riscvNetSave exampleStateCLIC)).clicIntState = exampleStateCLIC.clicIntState ∧
      (riscvNetRestore { exampleStateCLIC with clicIpe := 0 }
        (riscvNetSave exampleStateCLIC)).clicIpe =
        freshIPE (riscvNetRestore { exampleStateCLIC with clicIpe := 0 }
            (riscvNetSave exampleStateCLIC)).clicIntState
          (getIntNum (riscvNetRestore { exampleStateCLIC with clicIpe := 0 }
            (riscvNetSave exampleStateCLIC))) ∧
      (∀ i, ((riscvNetRestore { exampleStateCLIC with clicIpe := 0 }
          (riscvNetSave exampleStateCLIC)).clicIpe.testBit i =
        decide (i < getIntNum exampleStateCLIC ∧
          (exampleStateCLIC.clicIntState i).ip ≠ 0 ∧
          (exampleStateCLIC.clicIntState i).ie ≠ 0))) ∧
      riscvNetRestore { exampleStateCLIC with clicIpe := 0 }
          (riscvNetSave exampleStateCLIC) =
        riscvTestInterrupt (riscvNetRestorePre { exampleStateCLIC with clicIpe := 0 }
          (riscvNetSave exampleStateCLIC))) :=
  ⟨rfl, rfl, riscvNetRestoreRoundtrip exampleStateCLIC { exampleStateCLIC with clicIpe := 0 }
    rfl rfl⟩


theorem deliverMid_frame (st : Riscv) (exc tv : Nat) :
    ∃ ms mint uc sc mc ue se me utv stv mtv bi af md,
      (deliverMid st exc tv).st =
        { st with
          mstatus := ms, mintstatus := mint, ucause := uc, scause := sc, mcause := mc,
          uepc := ue, sepc := se, mepc := me, utval := utv, stval := stv, mtval := mtv,
          baseInstructions := bi, AFErrorOut := af, exclusiveTag := RISCV_NO_TAG,
          mode := md, exception := exc } := by
  by_cases hx0 : targetModeOf st exc = RISCV_MODE_USER
  · simp [deliverMid, targetModeX, clearEA, riscvSetMode, setXPIE, setXIE, setXcause,
      setXepc, setXtval, setXil, hx0, RISCV_MODE_USER, RISCV_MODE_SUPERVISOR]
  · by_cases hx1 : targetModeOf st exc = RISCV_MODE_SUPERVISOR
    · simp [deliverMid, targetModeX, clearEA, riscvSetMode, setXPIE, setXIE, setXcause,
        setXepc, setXtval, setXil, hx1, RISCV_MODE_USER, RISCV_MODE_SUPERVISOR]
    · simp [deliverMid, targetModeX, clearEA, riscvSetMode, setXPIE, setXIE, setXcause,
        setXepc, setXtval, setXil, hx0, hx1]

theorem deliverMid_IE (st : Riscv) (exc tv : Nat) :
    getXIE (deliverMid st exc tv).st (targetModeOf st exc) = false := by
  by_cases hx0 : targetModeOf st exc = RISCV_MODE_USER
  · simp [deliverMid, targetModeX, clearEA, riscvSetMode, setXPIE, setXIE, setXcause,
      setXepc, setXtval, setXil, getXIE, hx0, RISCV_MODE_USER, RISCV_MODE_SUPERVISOR]
  · by_cases hx1 : targetModeOf st exc = RISCV_MODE_SUPERVISOR
    · simp [deliverMid, targetModeX, clearEA, riscvSetMode, setXPIE, setXIE, setXcause,
        setXepc, setXtval, setXil, getXIE, hx1, RISCV_MODE_USER, RISCV_MODE_SUPERVISOR]
    · simp [deliverMid, targetModeX, clearEA, riscvSetMode, setXPIE, setXIE, setXcause,
        setXepc, setXtval, setXil, getXIE, hx0, hx1]

theorem deliverMid_base (st : Riscv) (exc tv : Nat) :
    (deliverMid st exc tv).base = (getXtvec st (targetModeOf st exc)).BASE <<< 2 := by
  by_cases hx0 : targetModeOf st exc = RISCV_MODE_USER
  · simp [deliverMid, targetModeX, clearEA, riscvSetMode, setXPIE, setXIE, setXcause,
      setXepc, setXtval, setXil, getXtvec, hx0, RISCV_MODE_USER, RISCV_MODE_SUPERVISOR]
  · by_cases hx1 : targetModeOf st exc = RISCV_MODE_SUPERVISOR
    · simp [deliverMid, targetModeX, clearEA, riscvSetMode, setXPIE, setXIE, setXcause,
        setXepc, setXtval, setXil, getXtvec, hx1, RISCV_MODE_USER, RISCV_MODE_SUPERVISOR]
    · simp [deliverMid, targetModeX, clearEA, riscvSetMode, setXPIE, setXIE, setXcause,
        setXepc, setXtval, setXil, getXtvec, hx0, hx1]

theorem deliverMid_easy (st : Riscv) (exc tv : Nat) :
    (deliverMid st exc tv).modeX = targetModeOf st exc ∧
    (deliverMid st exc tv).isInt = isInterrupt exc ∧
    (deliverMid st exc tv).shv = st.clicSel.shv ∧
    (deliverMid st exc tv).ecode = getExceptionCode exc ∧
    (deliverMid st exc tv).ecodeMod = reportedCode st exc ∧
    (deliverMid st exc tv).st.exception = exc ∧
    (deliverMid st exc tv).st.mode = targetModeOf st exc :=
  ⟨rfl, rfl, rfl, rfl, rfl, rfl, rfl⟩

theorem deliverMid_PIE (st : Riscv) (exc tv : Nat) :
    getXPIE (deliverMid st exc tv).st (targetModeOf st exc)
      = getXIE st (targetModeOf st exc) := by
  by_cases hx0 : targetModeOf st exc = RISCV_MODE_USER
  · simp [deliverMid, targetModeX, clearEA, riscvSetMode, setXPIE, setXIE, setXcause,
      setXepc, setXtval, setXil, getXPIE, getXIE, hx0, RISCV_MODE_USER, RISCV_MODE_SUPERVISOR]
  · by_cases hx1 : targetModeOf st exc = RISCV_MODE_SUPERVISOR
    · simp [deliverMid, targetModeX, clearEA, riscvSetMode, setXPIE, setXIE, setXcause,
        setXepc, setXtval, setXil, getXPIE, getXIE, hx1, RISCV_MODE_USER, RISCV_MODE_SUPERVISOR]
    · simp [deliverMid, targetModeX, clearEA, riscvSetMode, setXPIE, setXIE, setXcause,
        setXepc, setXtval, setXil, getXPIE, getXIE, hx0, hx1]

theorem deliverMid_cause (st : Riscv) (exc tv : Nat) :
    getXcause (deliverMid st exc tv).st (targetModeOf st exc) =
      { ExceptionCode := reportedCode st exc, Interrupt := isInterrupt exc,
        pil := getXil st (targetModeOf st exc),
        inhv := if useCLICM st = true then (getXcause st (targetModeOf st exc)).inhv
                else false } := by
  by_cases hx0 : targetModeOf st exc = RISCV_MODE_USER
  · simp [deliverMid, targetModeX, clearEA, riscvSetMode, setXPIE, setXIE, setXcause,
      setXepc, setXtval, setXil, getXcause, getXil, useCLICM, hx0,
      RISCV_MODE_USER, RISCV_MODE_SUPERVISOR]
    split <;> simp_all
  · by_cases hx1 : targetModeOf st exc = RISCV_MODE_SUPERVISOR
    · simp [deliverMid, targetModeX, clearEA, riscvSetMode, setXPIE, setXIE, setXcause,
        setXepc, setXtval, setXil, getXcause, getXil, useCLICM, hx1,
        RISCV_MODE_USER, RISCV_MODE_SUPERVISOR]
      split <;> simp_all
    · simp [deliverMid, targetModeX, clearEA, riscvSetMode, setXPIE, setXIE, setXcause,
        setXepc, setXtval, setXil, getXcause, getXil, useCLICM, hx0, hx1]
      split <;> simp_all

theorem modeNeqUS : (RISCV_MODE_USER = RISCV_MODE_SUPERVISOR) = False := by decide

theorem modeNeqSU : (RISCV_MODE_SUPERVISOR = RISCV_MODE_USER) = False := by decide

theorem deliverMid_inhv (st : Riscv) (exc tv : Nat) (hC : useCLICM st = true) (Y : Nat) :
    (getXcause (deliverMid st exc tv).st Y).inhv = (getXcause st Y).inhv := by
  have hCf : st.useCLICMFlag = true := hC
  by_cases hx0 : targetModeOf st exc = RISCV_MODE_USER <;>
    by_cases hx1 : targetModeOf st exc = RISCV_MODE_SUPERVISOR <;>
    by_cases hy0 : Y = RISCV_MODE_USER <;>
    by_cases hy1 : Y = RISCV_MODE_SUPERVISOR <;>
    first
    | (rw [hx0] at hx1; exact absurd hx1 (by decide))
    | simp [deliverMid, targetModeX, clearEA, riscvSetMode, setXPIE, setXIE, setXcause,
        setXepc, setXtval, setXil, getXcause, useCLICM, hx0, hx1, hy0, hy1, hCf,
        modeNeqUS, modeNeqSU]

theorem deliverMid_epc (st : Riscv) (exc tv : Nat) :
    getXepc (deliverMid st exc tv).st (targetModeOf st exc)
      = getEPC st &&& getXepcMask st (targetModeOf st exc) := by
  by_cases hx0 : targetModeOf st exc = RISCV_MODE_USER
  · simp [deliverMid, targetModeX, clearEA, riscvSetMode, setXPIE, setXIE, setXcause,
      setXepc, setXtval, setXil, getXepc, getXepcMask, getEPC, hx0,
      RISCV_MODE_USER, RISCV_MODE_SUPERVISOR]
  · by_cases hx1 : targetModeOf st exc = RISCV_MODE_SUPERVISOR
    · simp [deliverMid, targetModeX, clearEA, riscvSetMode, setXPIE, setXIE, setXcause,
        setXepc, setXtval, setXil, getXepc, getXepcMask, getEPC, hx1,
        RISCV_MODE_USER, RISCV_MODE_SUPERVISOR]
    · simp [deliverMid, targetModeX, clearEA, riscvSetMode, setXPIE, setXIE, setXcause,
        setXepc, setXtval, setXil, getXepc, getXepcMask, getEPC, hx0, hx1]

theorem deliverMid_tval (st : Riscv) (exc tv : Nat) :
    getXtval (deliverMid st exc tv).st (targetModeOf st exc)
      = (if st.configInfo.tval_zero = true then 0 else tv) := by
  by_cases hx0 : targetModeOf st exc = RISCV_MODE_USER
  · simp [deliverMid, targetModeX, clearEA, riscvSetMode, setXPIE, setXIE, setXcause,
      setXepc, setXtval, setXil, getXtval, hx0, RISCV_MODE_USER, RISCV_MODE_SUPERVISOR]
  · by_cases hx1 : targetModeOf st exc = RISCV_MODE_SUPERVISOR
    · simp [deliverMid, targetModeX, clearEA, riscvSetMode, setXPIE, setXIE, setXcause,
        setXepc, setXtval, setXil, getXtval, hx1, RISCV_MODE_USER, RISCV_MODE_SUPERVISOR]
    · simp [deliverMid, targetModeX, clearEA, riscvSetMode, setXPIE, setXIE, setXcause,
        setXepc, setXtval, setXil, getXtval, hx0, hx1]

theorem deliverMid_imode (st : Riscv) (exc tv : Nat) :
    (deliverMid st exc tv).imode
      = getIMode (getXIMode st (targetModeOf st exc))
          (getXtvec st (targetModeOf st exc)).MODE := by
  by_cases hx0 : targetModeOf st exc = RISCV_MODE_USER
  · simp [deliverMid, targetModeX, clearEA, riscvSetMode, setXPIE, setXIE, setXcause,
      setXepc, setXtval, setXil, getXIMode, getXtvec, hx0,
      RISCV_MODE_USER, RISCV_MODE_SUPERVISOR]
  · by_cases hx1 : targetModeOf st exc = RISCV_MODE_SUPERVISOR
    · simp [deliverMid, targetModeX, clearEA, riscvSetMode, setXPIE, setXIE, setXcause,
        setXepc, setXtval, setXil, getXIMode, getXtvec, hx1,
        RISCV_MODE_USER, RISCV_MODE_SUPERVISOR]
    · simp [deliverMid, targetModeX, clearEA, riscvSetMode, setXPIE, setXIE, setXcause,
        setXepc, setXtval, setXil, getXIMode, getXtvec, hx0, hx1]

theorem deliverMid_instr (st : Riscv) (exc tv : Nat) :
    (deliverMid st exc tv).st.baseInstructions =
      (if retiredCode st exc = false ∧ riscvInhibitInstret st = false then
        st.baseInstructions + 1
      else st.baseInstructions) ∧
    (deliverMid st exc tv).st.instretRaw = st.instretRaw := by
  by_cases hx0 : targetModeOf st exc = RISCV_MODE_USER
  · simp [deliverMid, targetModeX, clearEA, riscvSetMode, setXPIE, setXIE, setXcause,
      setXepc, setXtval, setXil, hx0, RISCV_MODE_USER, RISCV_MODE_SUPERVISOR]
  · by_cases hx1 : targetModeOf st exc = RISCV_MODE_SUPERVISOR
    · simp [deliverMid, targetModeX, clearEA, riscvSetMode, setXPIE, setXIE, setXcause,
        setXepc, setXtval, setXil, hx1, RISCV_MODE_USER, RISCV_MODE_SUPERVISOR]
    · simp [deliverMid, targetModeX, clearEA, riscvSetMode, setXPIE, setXIE, setXcause,
        setXepc, setXtval, setXil, hx0, hx1]

theorem getXcause_setXcauseInhv (s : Riscv) (X : Nat) (v : Bool) :
    getXcause (setXcauseInhv s X v) X = { getXcause s X with inhv := v } := by
  by_cases h0 : X = RISCV_MODE_USER <;> by_cases h1 : X = RISCV_MODE_SUPERVISOR <;>
    simp [setXcauseInhv, setXcause, getXcause, h0, h1, modeNeqUS, modeNeqSU]

theorem setXcauseInhv_frame (s : Riscv) (X : Nat) (v : Bool) :
    ∃ uc sc mc, setXcauseInhv s X v = { s with ucause := uc, scause := sc, mcause := mc } := by
  simp only [setXcauseInhv, setXcause]
  repeat' split
  all_goals exact ⟨_, _, _, rfl⟩

theorem xcauseFields_setXcauseInhv (s : Riscv) (X Y : Nat) (v : Bool) :
    (getXcause (setXcauseInhv s Y v) X).ExceptionCode = (getXcause s X).ExceptionCode ∧
    (getXcause (setXcauseInhv s Y v) X).Interrupt = (getXcause s X).Interrupt ∧
    (getXcause (setXcauseInhv s Y v) X).pil = (getXcause s X).pil := by
  by_cases hy0 : Y = RISCV_MODE_USER <;> by_cases hy1 : Y = RISCV_MODE_SUPERVISOR <;>
    by_cases hx0 : X = RISCV_MODE_USER <;> by_cases hx1 : X = RISCV_MODE_SUPERVISOR <;>
    first
    | (rw [hy0] at hy1; exact absurd hy1 (by decide))
    | simp [getXcause, setXcauseInhv, setXcause, hy0, hy1, hx0, hx1, modeNeqUS, modeNeqSU]

theorem shvTail_eq (s : Riscv) (X addr : Nat) (hi : isInterrupt s.exception = true) :
    shvSuccessTail s X addr
      = setPCNotify (setXcauseInhv s X false) (clearBit0 (readWord s addr)) := by
  simp only [shvSuccessTail]
  rw [if_pos hi]

theorem shvWrap_obs (s : Riscv) (X : Nat) (v : Nat) :
    getXIE (setPCNotify (setXcauseInhv s X false) v) X = getXIE s X ∧
    getXPIE (setPCNotify (setXcauseInhv s X false) v) X = getXPIE s X ∧
    (getXcause (setPCNotify (setXcauseInhv s X false) v) X).ExceptionCode
      = (getXcause s X).ExceptionCode ∧
    (getXcause (setPCNotify (setXcauseInhv s X false) v) X).Interrupt
      = (getXcause s X).Interrupt ∧
    (getXcause (setPCNotify (setXcauseInhv s X false) v) X).inhv = false ∧
    getXepc (setPCNotify (setXcauseInhv s X false) v) X = getXepc s X ∧
    getXtval (setPCNotify (setXcauseInhv s X false) v) X = getXtval s X ∧
    (setPCNotify (setXcauseInhv s X false) v).mode = s.mode ∧
    (setPCNotify (setXcauseInhv s X false) v).pc = v ∧
    (setPCNotify (setXcauseInhv s X false) v).baseInstructions = s.baseInstructions ∧
    (setPCNotify (setXcauseInhv s X false) v).instretRaw = s.instretRaw ∧
    (setPCNotify (setXcauseInhv s X false) v).exception = s.exception := by
  by_cases h0 : X = RISCV_MODE_USER <;> by_cases h1 : X = RISCV_MODE_SUPERVISOR <;>
    simp [setPCNotify, setXcauseInhv, setXcause, getXcause, getXIE, getXPIE, getXepc,
      getXtval, h0, h1, modeNeqUS, modeNeqSU]

theorem ackInhv_obs (s : Riscv) (X i : Nat) :
    getXIE (setXcauseInhv (riscvAcknowledgeCLICInt s i) X true) X = getXIE s X ∧
    getXPIE (setXcauseInhv (riscvAcknowledgeCLICInt s i) X true) X = getXPIE s X ∧
    (getXcause (setXcauseInhv (riscvAcknowledgeCLICInt s i) X true) X).ExceptionCode
      = (getXcause s X).ExceptionCode ∧
    (getXcause (setXcauseInhv (riscvAcknowledgeCLICInt s i) X true) X).Interrupt
      = (getXcause s X).Interrupt ∧
    (getXcause (setXcauseInhv (riscvAcknowledgeCLICInt s i) X true) X).inhv = true ∧
    getXepc (setXcauseInhv (riscvAcknowledgeCLICInt s i) X true) X = getXepc s X ∧
    getXtval (setXcauseInhv (riscvAcknowledgeCLICInt s i) X true) X = getXtval s X ∧
    (setXcauseInhv (riscvAcknowledgeCLICInt s i) X true).mode = s.mode ∧
    (setXcauseInhv (riscvAcknowledgeCLICInt s i) X true).exception = s.exception ∧
    (setXcauseInhv (riscvAcknowledgeCLICInt s i) X true).vecFault = s.vecFault ∧
    (setXcauseInhv (riscvAcknowledgeCLICInt s i) X true).xlen = s.xlen ∧
    (setXcauseInhv (riscvAcknowledgeCLICInt s i) X true).vecMem = s.vecMem ∧
    (setXcauseInhv (riscvAcknowledgeCLICInt s i) X true).baseInstructions
      = s.baseInstructions ∧
    (setXcauseInhv (riscvAcknowledgeCLICInt s i) X true).instretRaw = s.instretRaw ∧
    getXtvt (setXcauseInhv (riscvAcknowledgeCLICInt s i) X true) X = getXtvt s X ∧
    (setXcauseInhv (riscvAcknowledgeCLICInt s i) X true).vFirstFault = s.vFirstFault ∧
    (setXcauseInhv (riscvAcknowledgeCLICInt s i) X true).DM = s.DM ∧
    (setXcauseInhv (riscvAcknowledgeCLICInt s i) X true).medeleg = s.medeleg ∧
    (setXcauseInhv (riscvAcknowledgeCLICInt s i) X true).sedeleg = s.sedeleg ∧
    (setXcauseInhv (riscvAcknowledgeCLICInt s i) X true).useCLICMFlag = s.useCLICMFlag ∧
    (∀ Y, getXtvec (setXcauseInhv (riscvAcknowledgeCLICInt s i) X true) Y
      = getXtvec s Y) := by
  obtain ⟨a, b, d, e, f, g, k, hack⟩ := riscvAcknowledgeCLICInt_frame s i
  rw [hack]
  by_cases h0 : X = RISCV_MODE_USER <;> by_cases h1 : X = RISCV_MODE_SUPERVISOR <;>
    (refine ⟨?_, ?_, ?_, ?_, ?_, ?_, ?_, ?_, ?_, ?_, ?_, ?_, ?_, ?_, ?_, ?_, ?_, ?_, ?_,
      ?_, ?_⟩ <;>
      first
      | (intro Y
         by_cases hy0 : Y = RISCV_MODE_USER <;> by_cases hy1 : Y = RISCV_MODE_SUPERVISOR <;>
           simp [setXcauseInhv, setXcause, getXcause, getXtvec, h0, h1, hy0, hy1,
             modeNeqUS, modeNeqSU])
      | simp [setXcauseInhv, setXcause, getXcause, getXIE, getXPIE, getXepc, getXtval,
          getXtvt, h0, h1, modeNeqUS, modeNeqSU])

theorem deliver_eq1 (st : Riscv) (exc tv : Nat)
    (hb1 : (deliverMid st exc tv).imode = riscv_int_Direct
      ∨ (deliverMid st exc tv).isInt = false) :
    deliver st exc tv = setPCNotify (deliverMid st exc tv).st (deliverMid st exc tv).base := by
  simp only [deliver]
  rw [if_pos hb1]

theorem deliver_eq2 (st : Riscv) (exc tv : Nat)
    (hb1 : ¬((deliverMid st exc tv).imode = riscv_int_Direct
      ∨ (deliverMid st exc tv).isInt = false))
    (hb2 : (deliverMid st exc tv).imode ≠ riscv_int_CLIC) :
    deliver st exc tv
      = setPCNotify (deliverMid st exc tv).st
          ((deliverMid st exc tv).base + 4 * (deliverMid st exc tv).ecode) := by
  simp only [deliver]
  rw [if_neg hb1, if_pos hb2]

theorem deliver_eq3 (st : Riscv) (exc tv : Nat)
    (hb1 : ¬((deliverMid st exc tv).imode = riscv_int_Direct
      ∨ (deliverMid st exc tv).isInt = false))
    (hb2 : ¬(deliverMid st exc tv).imode ≠ riscv_int_CLIC)
    (hb3 : (deliverMid st exc tv).shv = false) :
    deliver st exc tv
      = setPCNotify (deliverMid st exc tv).st ((deliverMid st exc tv).base / 64 * 64) := by
  simp only [deliver]
  rw [if_neg hb1, if_neg hb2, if_pos hb3]

theorem deliverSHV_eq (st : Riscv) (exc tv : Nat)
    (hb1 : ¬((deliverMid st exc tv).imode = riscv_int_Direct
      ∨ (deliverMid st exc tv).isInt = false))
    (hb2 : ¬(deliverMid st exc tv).imode ≠ riscv_int_CLIC)
    (hb3 : ¬(deliverMid st exc tv).shv = false)
    (hVF : vecFaultPath st exc = false) :
    deliver st exc tv
      = setPCNotify
          (setXcauseInhv (setXcauseInhv (riscvAcknowledgeCLICInt (deliverMid st exc tv).st
            (getExceptionCode exc)) (targetModeOf st exc) true) (targetModeOf st exc) false)
          (clearBit0 (readWord (setXcauseInhv (riscvAcknowledgeCLICInt
            (deliverMid st exc tv).st (getExceptionCode exc)) (targetModeOf st exc) true)
            (getXtvt st (targetModeOf st exc) + st.xlen / 8 * reportedCode st exc))) := by
  obtain ⟨hmx, hism, hshv, hec, hecm, hexc, hmode⟩ := deliverMid_easy st exc tv
  have hi : isInterrupt exc = true := by
    rcases not_or.mp hb1 with ⟨_, hni⟩
    rw [hism] at hni
    simpa using hni
  have himc : (deliverMid st exc tv).imode = riscv_int_CLIC := not_not.mp hb2
  have hshvT : st.clicSel.shv = true := by
    rw [← hshv]
    simpa using hb3
  obtain ⟨ms, mint, uc, sc, mc, ue, se, me, utv, stv, mtv, bi, af, md, hfr⟩ :=
    deliverMid_frame st exc tv
  have hmvf : (deliverMid st exc tv).st.vecFault = st.vecFault := by rw [hfr]
  have hmxl : (deliverMid st exc tv).st.xlen = st.xlen := by rw [hfr]
  have hmtvt : getXtvt (deliverMid st exc tv).st (targetModeOf st exc)
      = getXtvt st (targetModeOf st exc) := by
    rw [hfr]
    by_cases h0 : targetModeOf st exc = RISCV_MODE_USER <;>
      by_cases h1 : targetModeOf st exc = RISCV_MODE_SUPERVISOR <;>
      simp [getXtvt, h0, h1]
  obtain ⟨oIE, oPIE, oEC, oInt, oInhv, oEpc, oTval, oMode, oExc, oVF, oXlen, oVM,
    oBI, oIR, oTvt, oFF, oDM, oMed, oSed, oCM, oTvec⟩ :=
    ackInhv_obs (deliverMid st exc tv).st (targetModeOf st exc) (getExceptionCode exc)
  have hnone : st.vecFault (getXtvt st (targetModeOf st exc)
      + st.xlen / 8 * reportedCode st exc) = none := by
    cases hvo : st.vecFault (getXtvt st (targetModeOf st exc)
        + st.xlen / 8 * reportedCode st exc) with
    | none => rfl
    | some p =>
      exfalso
      have hvb := hVF
      rw [deliverMid_imode st exc tv] at himc
      simp [vecFaultPath, hi, himc, hshvT, hvo] at hvb
  have hS9vf : (setXcauseInhv (riscvAcknowledgeCLICInt (deliverMid st exc tv).st
      (getExceptionCode exc)) (targetModeOf st exc) true).vecFault
      = st.vecFault := oVF.trans hmvf
  have hS9xl : (setXcauseInhv (riscvAcknowledgeCLICInt (deliverMid st exc tv).st
      (getExceptionCode exc)) (targetModeOf st exc) true).xlen = st.xlen :=
    oXlen.trans hmxl
  have hS9tvt : getXtvt (setXcauseInhv (riscvAcknowledgeCLICInt
      (deliverMid st exc tv).st (getExceptionCode exc)) (targetModeOf st exc) true)
      (targetModeOf st exc) = getXtvt st (targetModeOf st exc) :=
    oTvt.trans hmtvt
  have hS9exc : (setXcauseInhv (riscvAcknowledgeCLICInt (deliverMid st exc tv).st
      (getExceptionCode exc)) (targetModeOf st exc) true).exception = exc :=
    oExc.trans hexc
  have hd : deliver st exc tv
      = shvSuccessTail
          (setXcauseInhv (riscvAcknowledgeCLICInt (deliverMid st exc tv).st
            (getExceptionCode exc)) (targetModeOf st exc) true)
          (targetModeOf st exc)
          (getXtvt st (targetModeOf st exc) + st.xlen / 8 * reportedCode st exc) := by
    simp only [deliver]
    rw [if_neg hb1, if_neg hb2, if_neg hb3]
    rw [hmx, hec, hecm, hS9tvt, hS9xl, hS9vf, hnone]
  rw [hd]
  have hS9i : isInterrupt (setXcauseInhv (riscvAcknowledgeCLICInt
      (deliverMid st exc tv).st (getExceptionCode exc)) (targetModeOf st exc)
      true).exception = true := by
    rw [hS9exc]
    exact hi
  rw [shvTail_eq _ _ _ hS9i]

/-- C1: for every trap taken while not in Debug mode (and not reaching a
faulting CLIC vector-table read), the target-mode interrupt-enable
stack is pushed (xIE cleared, xPIE receiving the old xIE), xcause
carries the interrupt flag and the reported code (which for external
interrupts is the latched non-zero override ID rather than the
architectural code, correcting the claim), xepc receives the faulting
PC masked to its writable bits, xtval the supplied (or zeroed) trap
value, and the privilege switches to the target mode. -/
theorem takeExceptionTrapCSRs (st : Riscv) (exc tv : Nat)
    (hDM : inDebugMode st = false) (hVF : vecFaultPath st exc = false) :
    getXIE (riscvTakeException st exc tv) (targetModeOf st exc) = false ∧
    getXPIE (riscvTakeException st exc tv) (targetModeOf st exc)
      = getXIE st (targetModeOf st exc) ∧
    (getXcause (riscvTakeException st exc tv) (targetModeOf st exc)).Interrupt
      = isInterrupt exc ∧
    (getXcause (riscvTakeException st exc tv) (targetModeOf st exc)).ExceptionCode
      = reportedCode st exc ∧
    getXepc (riscvTakeException st exc tv) (targetModeOf st exc)
      = getEPC st &&& getXepcMask st (targetModeOf st exc) ∧
    getXtval (riscvTakeException st exc tv) (targetModeOf st exc)
      = (if st.configInfo.tval_zero = true then 0 else tv) ∧
    (riscvTakeException st exc tv).mode = targetModeOf st exc := by
  have hde : riscvTakeException st exc tv = deliver st exc tv := by
    simp [riscvTakeException, hDM]
  rw [hde]
  obtain ⟨hmx, hism, hshv, hec, hecm, hexc, hmode⟩ := deliverMid_easy st exc tv
  have hIE := deliverMid_IE st exc tv
  have hPIE := deliverMid_PIE st exc tv
  have hcau := deliverMid_cause st exc tv
  have hepc := deliverMid_epc st exc tv
  have htv := deliverMid_tval st exc tv
  by_cases hb1 : (deliverMid st exc tv).imode = riscv_int_Direct
      ∨ (deliverMid st exc tv).isInt = false
  · rw [deliver_eq1 st exc tv hb1]
    exact ⟨hIE, hPIE, congrArg Xcause.Interrupt hcau, congrArg Xcause.ExceptionCode hcau,
      hepc, htv, hmode⟩
  · by_cases hb2 : (deliverMid st exc tv).imode ≠ riscv_int_CLIC
    · rw [deliver_eq2 st exc tv hb1 hb2]
      exact ⟨hIE, hPIE, congrArg Xcause.Interrupt hcau, congrArg Xcause.ExceptionCode hcau,
        hepc, htv, hmode⟩
    · by_cases hb3 : (deliverMid st exc tv).shv = false
      · rw [deliver_eq3 st exc tv hb1 hb2 hb3]
        exact ⟨hIE, hPIE, congrArg Xcause.Interrupt hcau, congrArg Xcause.ExceptionCode hcau,
          hepc, htv, hmode⟩
      · rw [deliverSHV_eq st exc tv hb1 hb2 hb3 hVF]
        obtain ⟨oIE, oPIE, oEC, oInt, oInhv, oEpc, oTval, oMode, oExc, oVF, oXlen, oVM,
          oBI, oIR, oTvt, oFF, oDM, oMed, oSed, oCM, oTvec⟩ :=
          ackInhv_obs (deliverMid st exc tv).st (targetModeOf st exc) (getExceptionCode exc)
        obtain ⟨wIE, wPIE, wEC, wInt, wInhv, wEpc, wTval, wMode, wPC, wBI, wIR, wExc⟩ :=
          shvWrap_obs (setXcauseInhv (riscvAcknowledgeCLICInt (deliverMid st exc tv).st
            (getExceptionCode exc)) (targetModeOf st exc) true) (targetModeOf st exc)
            (clearBit0 (readWord (setXcauseInhv (riscvAcknowledgeCLICInt
              (deliverMid st exc tv).st (getExceptionCode exc)) (targetModeOf st exc) true)
              (getXtvt st (targetModeOf st exc) + st.xlen / 8 * reportedCode st exc)))
        exact ⟨wIE.trans (oIE.trans hIE), wPIE.trans (oPIE.trans hPIE),
          wInt.trans (oInt.trans (congrArg Xcause.Interrupt hcau)),
          wEC.trans (oEC.trans (congrArg Xcause.ExceptionCode hcau)),
          wEpc.trans (oEpc.trans hepc), wTval.trans (oTval.trans htv),
          wMode.trans (oMode.trans hmode)⟩

/-- C1 witness: a machine timer interrupt taken from U mode on the
concrete example state. -/
theorem takeExceptionTrapCSRs_witness :
    getXIE (riscvTakeException exampleState 23 0) (targetModeOf exampleState 23) = false ∧
    (getXcause (riscvTakeException exampleState 23 0)
      (targetModeOf exampleState 23)).ExceptionCode = reportedCode exampleState 23 :=
  ⟨(takeExceptionTrapCSRs exampleState 23 0 (by decide) (by decide)).1,
   (takeExceptionTrapCSRs exampleState 23 0 (by decide) (by decide)).2.2.2.1⟩

/-- C1 counterexample: with a latched non-zero external-interrupt ID
override, the stored xcause.ExceptionCode differs from the
architectural exception code, refuting the claim's `= ecode` clause. -/
theorem takeExceptionTrapCSRsCex :
    inDebugMode exampleStateExt = false ∧
    vecFaultPath exampleStateExt 27 = false ∧
    (getXcause (riscvTakeException exampleStateExt 27 0)
      (targetModeOf exampleStateExt 27)).ExceptionCode ≠ getExceptionCode 27 := by
  refine ⟨by decide, by decide, ?_⟩
  decide

/-- C3: a trap delivery un-counts the trapping instruction from the
retired-instruction counter exactly when the exception code is not
classified as retired and mcountinhibit.IR is clear; ECALL from U mode
counts as retired before privileged version 1.12 and not from 1.12 on. -/
theorem takeExceptionRetired (st : Riscv) (exc tv : Nat)
    (hDM : inDebugMode st = false) (hVF : vecFaultPath st exc = false) :
    (riscvTakeException st exc tv).baseInstructions
      = (if retiredCode st exc = false ∧ riscvInhibitInstret st = false then
          st.baseInstructions + 1
        else st.baseInstructions) ∧
    (riscvTakeException st exc tv).instretRaw = st.instretRaw ∧
    (riscvInhibitInstret st = false →
      archInstret (riscvTakeException st exc tv)
        = (if retiredCode st exc = true then archInstret st else archInstret st - 1)) ∧
    (st.configInfo.priv_version = RVPV_1_11 →
      retiredCode st riscv_E_EnvironmentCallFromUMode = true) ∧
    (st.configInfo.priv_version = RVPV_1_12 →
      retiredCode st riscv_E_EnvironmentCallFromUMode = false) := by
  have hde : riscvTakeException st exc tv = deliver st exc tv := by
    simp [riscvTakeException, hDM]
  have hBI : (riscvTakeException st exc tv).baseInstructions
      = (if retiredCode st exc = false ∧ riscvInhibitInstret st = false then
          st.baseInstructions + 1
        else st.baseInstructions) ∧
      (riscvTakeException st exc tv).instretRaw = st.instretRaw := by
    rw [hde]
    obtain ⟨hI1, hI2⟩ := deliverMid_instr st exc tv
    by_cases hb1 : (deliverMid st exc tv).imode = riscv_int_Direct
        ∨ (deliverMid st exc tv).isInt = false
    · rw [deliver_eq1 st exc tv hb1]
      exact ⟨hI1, hI2⟩
    · by_cases hb2 : (deliverMid st exc tv).imode ≠ riscv_int_CLIC
      · rw [deliver_eq2 st exc tv hb1 hb2]
        exact ⟨hI1, hI2⟩
      · by_cases hb3 : (deliverMid st exc tv).shv = false
        · rw [deliver_eq3 st exc tv hb1 hb2 hb3]
          exact ⟨hI1, hI2⟩
        · rw [deliverSHV_eq st exc tv hb1 hb2 hb3 hVF]
          obtain ⟨oIE, oPIE, oEC, oInt, oInhv, oEpc, oTval, oMode, oExc, oVF, oXlen, oVM,
            oBI, oIR, oTvt, oFF, oDM, oMed, oSed, oCM, oTvec⟩ :=
            ackInhv_obs (deliverMid st exc tv).st (targetModeOf st exc)
              (getExceptionCode exc)
          obtain ⟨wIE, wPIE, wEC, wInt, wInhv, wEpc, wTval, wMode, wPC, wBI, wIR, wExc⟩ :=
            shvWrap_obs (setXcauseInhv (riscvAcknowledgeCLICInt (deliverMid st exc tv).st
              (getExceptionCode exc)) (targetModeOf st exc) true) (targetModeOf st exc)
              (clearBit0 (readWord (setXcauseInhv (riscvAcknowledgeCLICInt
                (deliverMid st exc tv).st (getExceptionCode exc)) (targetModeOf st exc)
                true) (getXtvt st (targetModeOf st exc)
                + st.xlen / 8 * reportedCode st exc)))
          exact ⟨wBI.trans (oBI.trans hI1), wIR.trans (oIR.trans hI2)⟩
  refine ⟨hBI.1, hBI.2, ?_, ?_, ?_⟩
  · intro hIR
    unfold archInstret
    rw [hBI.1, hBI.2]
    by_cases hr : retiredCode st exc = true
    · simp [hr, hIR]
    · have hr' : retiredCode st exc = false := by simpa using hr
      simp [hr', hIR]
      push_cast
      ring
  · intro hpv
    simp [retiredCode, riscv_E_EnvironmentCallFromUMode, hpv, RVPV_1_11, RVPV_1_12]
  · intro hpv
    simp [retiredCode, riscv_E_EnvironmentCallFromUMode, hpv, RVPV_1_12]

/-- C3 witness: ECALL from U mode on the 1.11 example configuration is
retired, so the base counter stays put. -/
theorem takeExceptionRetired_witness :
    (riscvTakeException exampleState 8 0).baseInstructions
      = (if retiredCode exampleState 8 = false ∧ riscvInhibitInstret exampleState = false
         then exampleState.baseInstructions + 1
         else exampleState.baseInstructions) ∧
    retiredCode exampleState riscv_E_EnvironmentCallFromUMode = true :=
  ⟨(takeExceptionRetired exampleState 8 0 (by decide) (by decide)).1,
   (takeExceptionRetired exampleState 8 0 (by decide) (by decide)).2.2.2.1 (by decide)⟩

theorem deliverSHVFault_eq (st : Riscv) (exc tv e2 t2 : Nat)
    (hb1 : ¬((deliverMid st exc tv).imode = riscv_int_Direct
      ∨ (deliverMid st exc tv).isInt = false))
    (hb2 : ¬(deliverMid st exc tv).imode ≠ riscv_int_CLIC)
    (hb3 : ¬(deliverMid st exc tv).shv = false)
    (hsome : st.vecFault (getXtvt st (targetModeOf st exc)
      + st.xlen / 8 * reportedCode st exc) = some (e2, t2))
    (hsync : isInterrupt e2 = false)
    (hFF : st.vFirstFault = false)
    (hDM : inDebugMode st = false) :
    deliver st exc tv
      = setPCNotify
          (deliverMid { setXcauseInhv (riscvAcknowledgeCLICInt (deliverMid st exc tv).st
              (getExceptionCode exc)) (targetModeOf st exc) true with
            vstart := (setXcauseInhv (riscvAcknowledgeCLICInt (deliverMid st exc tv).st
                (getExceptionCode exc)) (targetModeOf st exc) true).vstart
              &&& (setXcauseInhv (riscvAcknowledgeCLICInt (deliverMid st exc tv).st
                (getExceptionCode exc)) (targetModeOf st exc) true).vstartMask } e2 t2).st
          (deliverMid { setXcauseInhv (riscvAcknowledgeCLICInt (deliverMid st exc tv).st
              (getExceptionCode exc)) (targetModeOf st exc) true with
            vstart := (setXcauseInhv (riscvAcknowledgeCLICInt (deliverMid st exc tv).st
                (getExceptionCode exc)) (targetModeOf st exc) true).vstart
              &&& (setXcauseInhv (riscvAcknowledgeCLICInt (deliverMid st exc tv).st
                (getExceptionCode exc)) (targetModeOf st exc) true).vstartMask } e2
            t2).base := by
  obtain ⟨hmx, hism, hshv, hec, hecm, hexc, hmode⟩ := deliverMid_easy st exc tv
  obtain ⟨ms, mint, uc, sc, mc, ue, se, me, utv, stv, mtv, bi, af, md, hfr⟩ :=
    deliverMid_frame st exc tv
  have hmvf : (deliverMid st exc tv).st.vecFault = st.vecFault := by rw [hfr]
  have hmxl : (deliverMid st exc tv).st.xlen = st.xlen := by rw [hfr]
  have hmFF : (deliverMid st exc tv).st.vFirstFault = st.vFirstFault := by rw [hfr]
  have hmDM : (deliverMid st exc tv).st.DM = st.DM := by rw [hfr]
  have hmtvt : getXtvt (deliverMid st exc tv).st (targetModeOf st exc)
      = getXtvt st (targetModeOf st exc) := by
    rw [hfr]
    by_cases h0 : targetModeOf st exc = RISCV_MODE_USER <;>
      by_cases h1 : targetModeOf st exc = RISCV_MODE_SUPERVISOR <;>
      simp [getXtvt, h0, h1]
  obtain ⟨oIE, oPIE, oEC, oInt, oInhv, oEpc, oTval, oMode, oExc, oVF, oXlen, oVM,
    oBI, oIR, oTvt, oFF, oDM, oMed, oSed, oCM, oTvec⟩ :=
    ackInhv_obs (deliverMid st exc tv).st (targetModeOf st exc) (getExceptionCode exc)
  have hS9vf : (setXcauseInhv (riscvAcknowledgeCLICInt (deliverMid st exc tv).st
      (getExceptionCode exc)) (targetModeOf st exc) true).vecFault
      = st.vecFault := oVF.trans hmvf
  have hS9xl : (setXcauseInhv (riscvAcknowledgeCLICInt (deliverMid st exc tv).st
      (getExceptionCode exc)) (targetModeOf st exc) true).xlen = st.xlen :=
    oXlen.trans hmxl
  have hS9tvt : getXtvt (setXcauseInhv (riscvAcknowledgeCLICInt
      (deliverMid st exc tv).st (getExceptionCode exc)) (targetModeOf st exc) true)
      (targetModeOf st exc) = getXtvt st (targetModeOf st exc) :=
    oTvt.trans hmtvt
  have hSAFF : (setXcauseInhv (riscvAcknowledgeCLICInt (deliverMid st exc tv).st
      (getExceptionCode exc)) (targetModeOf st exc) true).vFirstFault = false :=
    oFF.trans (hmFF.trans hFF)
  have hSADM : (setXcauseInhv (riscvAcknowledgeCLICInt (deliverMid st exc tv).st
      (getExceptionCode exc)) (targetModeOf st exc) true).DM = false :=
    oDM.trans (hmDM.trans hDM)
  have hd : deliver st exc tv
      = shvSuccessTail
          (riscvTakeMemoryExceptionNested (setXcauseInhv (riscvAcknowledgeCLICInt
            (deliverMid st exc tv).st (getExceptionCode exc)) (targetModeOf st exc) true)
            e2 t2)
          (targetModeOf st exc)
          (getXtvt st (targetModeOf st exc) + st.xlen / 8 * reportedCode st exc) := by
    simp only [deliver]
    rw [if_neg hb1, if_neg hb2, if_neg hb3]
    rw [hmx, hec, hecm, hS9tvt, hS9xl, hS9vf, hsome]
  have hm2 : (deliverMid { setXcauseInhv (riscvAcknowledgeCLICInt
      (deliverMid st exc tv).st (getExceptionCode exc)) (targetModeOf st exc) true with
        vstart := (setXcauseInhv (riscvAcknowledgeCLICInt (deliverMid st exc tv).st
            (getExceptionCode exc)) (targetModeOf st exc) true).vstart
          &&& (setXcauseInhv (riscvAcknowledgeCLICInt (deliverMid st exc tv).st
            (getExceptionCode exc)) (targetModeOf st exc) true).vstartMask } e2 t2).isInt
      = false :=
    ((deliverMid_easy { setXcauseInhv (riscvAcknowledgeCLICInt (deliverMid st exc tv).st
          (getExceptionCode exc)) (targetModeOf st exc) true with
        vstart := (setXcauseInhv (riscvAcknowledgeCLICInt (deliverMid st exc tv).st
            (getExceptionCode exc)) (targetModeOf st exc) true).vstart
          &&& (setXcauseInhv (riscvAcknowledgeCLICInt (deliverMid st exc tv).st
            (getExceptionCode exc)) (targetModeOf st exc) true).vstartMask } e2 t2).2.1).trans hsync
  have hrest : riscvTakeMemoryExceptionNested (setXcauseInhv (riscvAcknowledgeCLICInt
      (deliverMid st exc tv).st (getExceptionCode exc)) (targetModeOf st exc) true) e2 t2
      = setPCNotify
          (deliverMid { setXcauseInhv (riscvAcknowledgeCLICInt (deliverMid st exc tv).st
              (getExceptionCode exc)) (targetModeOf st exc) true with
            vstart := (setXcauseInhv (riscvAcknowledgeCLICInt (deliverMid st exc tv).st
                (getExceptionCode exc)) (targetModeOf st exc) true).vstart
              &&& (setXcauseInhv (riscvAcknowledgeCLICInt (deliverMid st exc tv).st
                (getExceptionCode exc)) (targetModeOf st exc) true).vstartMask } e2 t2).st
          (deliverMid { setXcauseInhv (riscvAcknowledgeCLICInt (deliverMid st exc tv).st
              (getExceptionCode exc)) (targetModeOf st exc) true with
            vstart := (setXcauseInhv (riscvAcknowledgeCLICInt (deliverMid st exc tv).st
                (getExceptionCode exc)) (targetModeOf st exc) true).vstart
              &&& (setXcauseInhv (riscvAcknowledgeCLICInt (deliverMid st exc tv).st
                (getExceptionCode exc)) (targetModeOf st exc) true).vstartMask } e2
            t2).base := by
    simp only [riscvTakeMemoryExceptionNested]
    split
    · next hcond => exact absurd (hSAFF.symm.trans hcond) (by decide)
    · split
      · next hcond2 => exact absurd (hSADM.symm.trans hcond2) (by decide)
      · simp only [deliverNoVF]
        split
        · rfl
        · next hcon => exact absurd (Or.inr hm2) hcon
  rw [hd, hrest]
  simp only [shvSuccessTail]
  have h5 : (setPCNotify
      (deliverMid { setXcauseInhv (riscvAcknowledgeCLICInt (deliverMid st exc tv).st
          (getExceptionCode exc)) (targetModeOf st exc) true with
        vstart := (setXcauseInhv (riscvAcknowledgeCLICInt (deliverMid st exc tv).st
            (getExceptionCode exc)) (targetModeOf st exc) true).vstart
          &&& (setXcauseInhv (riscvAcknowledgeCLICInt (deliverMid st exc tv).st
            (getExceptionCode exc)) (targetModeOf st exc) true).vstartMask } e2 t2).st
      (deliverMid { setXcauseInhv (riscvAcknowledgeCLICInt (deliverMid st exc tv).st
          (getExceptionCode exc)) (targetModeOf st exc) true with
        vstart := (setXcauseInhv (riscvAcknowledgeCLICInt (deliverMid st exc tv).st
            (getExceptionCode exc)) (targetModeOf st exc) true).vstart
          &&& (setXcauseInhv (riscvAcknowledgeCLICInt (deliverMid st exc tv).st
            (getExceptionCode exc)) (targetModeOf st exc) true).vstartMask } e2
        t2).base).exception = e2 :=
    (deliverMid_easy { setXcauseInhv (riscvAcknowledgeCLICInt (deliverMid st exc tv).st
          (getExceptionCode exc)) (targetModeOf st exc) true with
        vstart := (setXcauseInhv (riscvAcknowledgeCLICInt (deliverMid st exc tv).st
            (getExceptionCode exc)) (targetModeOf st exc) true).vstart
          &&& (setXcauseInhv (riscvAcknowledgeCLICInt (deliverMid st exc tv).st
            (getExceptionCode exc)) (targetModeOf st exc) true).vstartMask } e2 t2).2.2.2.2.2.1
  split
  · next hc =>
    have hA : isInterrupt e2 = true := (congrArg isInterrupt h5).symm.trans hc
    exact absurd (hA.symm.trans hsync) (by decide)
  · rfl

theorem targetModeOf_sync (s : Riscv) (e : Nat) (hs : isInterrupt e = false) :
    targetModeOf s e = getModeXPure s.medeleg s.sedeleg (getExceptionCode e) s.mode := by
  simp only [targetModeOf, getExceptionModeX, getModeX, getCurrentMode]
  rw [hs]
  simp

/-- C2: handler-PC selection on every trap taken outside Debug mode:
direct (or any synchronous) traps go to the tvec base, non-CLIC
vectored interrupts to base + 4*ecode, CLIC non-SHV interrupts to the
base with its low six bits cleared, and CLIC SHV interrupts to the
vector-table word (low bit masked) with xcause.inhv cleared on success;
a trap raised by the table read supersedes the original interrupt and
is delivered from scratch with inhv left set. -/
theorem takeExceptionHandlerPC (st : Riscv) (exc tv : Nat)
    (hDM : inDebugMode st = false) :
    (getIMode (getXIMode st (targetModeOf st exc)) (getXtvec st (targetModeOf st exc)).MODE
        = riscv_int_Direct ∨ isInterrupt exc = false →
      (riscvTakeException st exc tv).pc
        = (getXtvec st (targetModeOf st exc)).BASE <<< 2) ∧
    (getIMode (getXIMode st (targetModeOf st exc)) (getXtvec st (targetModeOf st exc)).MODE
        ≠ riscv_int_Direct →
      getIMode (getXIMode st (targetModeOf st exc)) (getXtvec st (targetModeOf st exc)).MODE
        ≠ riscv_int_CLIC →
      isInterrupt exc = true →
      (riscvTakeException st exc tv).pc
        = (getXtvec st (targetModeOf st exc)).BASE <<< 2 + 4 * getExceptionCode exc) ∧
    (getIMode (getXIMode st (targetModeOf st exc)) (getXtvec st (targetModeOf st exc)).MODE
        = riscv_int_CLIC →
      isInterrupt exc = true → st.clicSel.shv = false →
      (riscvTakeException st exc tv).pc
        = (getXtvec st (targetModeOf st exc)).BASE <<< 2 / 64 * 64) ∧
    (getIMode (getXIMode st (targetModeOf st exc)) (getXtvec st (targetModeOf st exc)).MODE
        = riscv_int_CLIC →
      isInterrupt exc = true → st.clicSel.shv = true → vecFaultPath st exc = false →
      (riscvTakeException st exc tv).pc
          = clearBit0 (readWord st (getXtvt st (targetModeOf st exc)
              + st.xlen / 8 * reportedCode st exc)) ∧
        (getXcause (riscvTakeException st exc tv) (targetModeOf st exc)).inhv = false) ∧
    (∀ e2 t2,
      getIMode (getXIMode st (targetModeOf st exc)) (getXtvec st (targetModeOf st exc)).MODE
        = riscv_int_CLIC →
      isInterrupt exc = true → st.clicSel.shv = true →
      st.vecFault (getXtvt st (targetModeOf st exc)
        + st.xlen / 8 * reportedCode st exc) = some (e2, t2) →
      isInterrupt e2 = false → st.vFirstFault = false → useCLICM st = true →
      (riscvTakeException st exc tv).exception = e2 ∧
      (riscvTakeException st exc tv).pc
        = (getXtvec st (getModeXPure st.medeleg st.sedeleg (getExceptionCode e2)
            (targetModeOf st exc))).BASE <<< 2 ∧
      (getXcause (riscvTakeException st exc tv) (targetModeOf st exc)).inhv = true) := by
  have hde : riscvTakeException st exc tv = deliver st exc tv := by
    simp [riscvTakeException, hDM]
  obtain ⟨hmx, hism, hshv, hec, hecm, hexc, hmode⟩ := deliverMid_easy st exc tv
  refine ⟨?_, ?_, ?_, ?_, ?_⟩
  · intro h
    have hb1 : (deliverMid st exc tv).imode = riscv_int_Direct
        ∨ (deliverMid st exc tv).isInt = false := by
      rcases h with h | h
      · exact Or.inl ((deliverMid_imode st exc tv).trans h)
      · exact Or.inr (hism.trans h)
    rw [hde, deliver_eq1 st exc tv hb1]
    exact deliverMid_base st exc tv
  · intro h1 h2 h3
    have hb1 : ¬((deliverMid st exc tv).imode = riscv_int_Direct
        ∨ (deliverMid st exc tv).isInt = false) := by
      intro hcon
      rcases hcon with hA | hB
      · exact h1 ((deliverMid_imode st exc tv).symm.trans hA)
      · rw [hism, h3] at hB
        exact absurd hB (by decide)
    have hb2 : (deliverMid st exc tv).imode ≠ riscv_int_CLIC := by
      rw [deliverMid_imode st exc tv]
      exact h2
    rw [hde, deliver_eq2 st exc tv hb1 hb2]
    show (deliverMid st exc tv).base + 4 * (deliverMid st exc tv).ecode = _
    rw [deliverMid_base st exc tv, hec]
  · intro h1 h2 h3
    have hb1 : ¬((deliverMid st exc tv).imode = riscv_int_Direct
        ∨ (deliverMid st exc tv).isInt = false) := by
      intro hcon
      rcases hcon with hA | hB
      · rw [deliverMid_imode st exc tv, h1] at hA
        exact absurd hA (by decide)
      · rw [hism, h2] at hB
        exact absurd hB (by decide)
    have hb2 : ¬(deliverMid st exc tv).imode ≠ riscv_int_CLIC := by
      rw [deliverMid_imode st exc tv, h1]
      simp
    have hb3 : (deliverMid st exc tv).shv = false := hshv.trans h3
    rw [hde, deliver_eq3 st exc tv hb1 hb2 hb3]
    show (deliverMid st exc tv).base / 64 * 64 = _
    rw [deliverMid_base st exc tv]
  · intro h1 h2 h3 hVF
    have hb1 : ¬((deliverMid st exc tv).imode = riscv_int_Direct
        ∨ (deliverMid st exc tv).isInt = false) := by
      intro hcon
      rcases hcon with hA | hB
      · rw [deliverMid_imode st exc tv, h1] at hA
        exact absurd hA (by decide)
      · rw [hism, h2] at hB
        exact absurd hB (by decide)
    have hb2 : ¬(deliverMid st exc tv).imode ≠ riscv_int_CLIC := by
      rw [deliverMid_imode st exc tv, h1]
      simp
    have hb3 : ¬(deliverMid st exc tv).shv = false := by
      rw [hshv, h3]
      simp
    rw [hde, deliverSHV_eq st exc tv hb1 hb2 hb3 hVF]
    obtain ⟨ms, mint, uc, sc, mc, ue, se, me, utv, stv, mtv, bi, af, md, hfr⟩ :=
      deliverMid_frame st exc tv
    have hmvm : (deliverMid st exc tv).st.vecMem = st.vecMem := by rw [hfr]
    have hmxl : (deliverMid st exc tv).st.xlen = st.xlen := by rw [hfr]
    obtain ⟨oIE, oPIE, oEC, oInt, oInhv, oEpc, oTval, oMode, oExc, oVF, oXlen, oVM,
      oBI, oIR, oTvt, oFF, oDM, oMed, oSed, oCM, oTvec⟩ :=
      ackInhv_obs (deliverMid st exc tv).st (targetModeOf st exc) (getExceptionCode exc)
    obtain ⟨wIE, wPIE, wEC, wInt, wInhv, wEpc, wTval, wMode, wPC, wBI, wIR, wExc⟩ :=
      shvWrap_obs (setXcauseInhv (riscvAcknowledgeCLICInt (deliverMid st exc tv).st
        (getExceptionCode exc)) (targetModeOf st exc) true) (targetModeOf st exc)
        (clearBit0 (readWord (setXcauseInhv (riscvAcknowledgeCLICInt
          (deliverMid st exc tv).st (getExceptionCode exc)) (targetModeOf st exc) true)
          (getXtvt st (targetModeOf st exc) + st.xlen / 8 * reportedCode st exc)))
    constructor
    · have hrw : readWord (setXcauseInhv (riscvAcknowledgeCLICInt
          (deliverMid st exc tv).st (getExceptionCode exc)) (targetModeOf st exc) true)
          (getXtvt st (targetModeOf st exc) + st.xlen / 8 * reportedCode st exc)
          = readWord st (getXtvt st (targetModeOf st exc)
              + st.xlen / 8 * reportedCode st exc) := by
        unfold readWord
        rw [oVM.trans hmvm, oXlen.trans hmxl]
      exact wPC.trans (congrArg clearBit0 hrw)
    · exact wInhv
  · intro e2 t2 h1 h2 h3 hsome hsync hFF hCM
    have hb1 : ¬((deliverMid st exc tv).imode = riscv_int_Direct
        ∨ (deliverMid st exc tv).isInt = false) := by
      intro hcon
      rcases hcon with hA | hB
      · rw [deliverMid_imode st exc tv, h1] at hA
        exact absurd hA (by decide)
      · rw [hism, h2] at hB
        exact absurd hB (by decide)
    have hb2 : ¬(deliverMid st exc tv).imode ≠ riscv_int_CLIC := by
      rw [deliverMid_imode st exc tv, h1]
      simp
    have hb3 : ¬(deliverMid st exc tv).shv = false := by
      rw [hshv, h3]
      simp
    rw [hde, deliverSHVFault_eq st exc tv e2 t2 hb1 hb2 hb3 hsome hsync hFF hDM]
    obtain ⟨ms, mint, uc, sc, mc, ue, se, me, utv, stv, mtv, bi, af, md, hfr⟩ :=
      deliverMid_frame st exc tv
    have hmMed : (deliverMid st exc tv).st.medeleg = st.medeleg := by rw [hfr]
    have hmSed : (deliverMid st exc tv).st.sedeleg = st.sedeleg := by rw [hfr]
    have hmCM : (deliverMid st exc tv).st.useCLICMFlag = st.useCLICMFlag := by rw [hfr]
    have hmtvec : ∀ Y, getXtvec (deliverMid st exc tv).st Y = getXtvec st Y := by
      intro Y
      rw [hfr]
      by_cases hy0 : Y = RISCV_MODE_USER <;> by_cases hy1 : Y = RISCV_MODE_SUPERVISOR <;>
        simp [getXtvec, hy0, hy1]
    obtain ⟨oIE, oPIE, oEC, oInt, oInhv, oEpc, oTval, oMode, oExc, oVF, oXlen, oVM,
      oBI, oIR, oTvt, oFF, oDM, oMed, oSed, oCM, oTvec⟩ :=
      ackInhv_obs (deliverMid st exc tv).st (targetModeOf st exc) (getExceptionCode exc)
    obtain ⟨gmx, gism, gshv, gec, gecm, gexc, gmode⟩ :=
      deliverMid_easy { setXcauseInhv (riscvAcknowledgeCLICInt (deliverMid st exc tv).st
          (getExceptionCode exc)) (targetModeOf st exc) true with
        vstart := (setXcauseInhv (riscvAcknowledgeCLICInt (deliverMid st exc tv).st
            (getExceptionCode exc)) (targetModeOf st exc) true).vstart
          &&& (setXcauseInhv (riscvAcknowledgeCLICInt (deliverMid st exc tv).st
            (getExceptionCode exc)) (targetModeOf st exc) true).vstartMask } e2 t2
    have hSAmed : ({ setXcauseInhv (riscvAcknowledgeCLICInt (deliverMid st exc tv).st
        (getExceptionCode exc)) (targetModeOf st exc) true with
      vstart := (setXcauseInhv (riscvAcknowledgeCLICInt (deliverMid st exc tv).st
          (getExceptionCode exc)) (targetModeOf st exc) true).vstart
        &&& (setXcauseInhv (riscvAcknowledgeCLICInt (deliverMid st exc tv).st
          (getExceptionCode exc)) (targetModeOf st exc) true).vstartMask } : Riscv).medeleg
        = st.medeleg := oMed.trans hmMed
    have hSAsed : ({ setXcauseInhv (riscvAcknowledgeCLICInt (deliverMid st exc tv).st
        (getExceptionCode exc)) (targetModeOf st exc) true with
      vstart := (setXcauseInhv (riscvAcknowledgeCLICInt (deliverMid st exc tv).st
          (getExceptionCode exc)) (targetModeOf st exc) true).vstart
        &&& (setXcauseInhv (riscvAcknowledgeCLICInt (deliverMid st exc tv).st
          (getExceptionCode exc)) (targetModeOf st exc) true).vstartMask } : Riscv).sedeleg
        = st.sedeleg := oSed.trans hmSed
    have hSAmode : ({ setXcauseInhv (riscvAcknowledgeCLICInt (deliverMid st exc tv).st
        (getExceptionCode exc)) (targetModeOf st exc) true with
      vstart := (setXcauseInhv (riscvAcknowledgeCLICInt (deliverMid st exc tv).st
          (getExceptionCode exc)) (targetModeOf st exc) true).vstart
        &&& (setXcauseInhv (riscvAcknowledgeCLICInt (deliverMid st exc tv).st
          (getExceptionCode exc)) (targetModeOf st exc) true).vstartMask } : Riscv).mode
        = targetModeOf st exc := oMode.trans hmode
    have hX2 : targetModeOf { setXcauseInhv (riscvAcknowledgeCLICInt
        (deliverMid st exc tv).st (getExceptionCode exc)) (targetModeOf st exc) true with
      vstart := (setXcauseInhv (riscvAcknowledgeCLICInt (deliverMid st exc tv).st
          (getExceptionCode exc)) (targetModeOf st exc) true).vstart
        &&& (setXcauseInhv (riscvAcknowledgeCLICInt (deliverMid st exc tv).st
          (getExceptionCode exc)) (targetModeOf st exc) true).vstartMask } e2
        = getModeXPure st.medeleg st.sedeleg (getExceptionCode e2)
            (targetModeOf st exc) := by
      rw [targetModeOf_sync _ e2 hsync, hSAmed, hSAsed, hSAmode]
    refine ⟨gexc, ?_, ?_⟩
    · show (deliverMid _ e2 t2).base = _
      rw [deliverMid_base]
      rw [hX2]
      have := oTvec (getModeXPure st.medeleg st.sedeleg (getExceptionCode e2)
        (targetModeOf st exc))
      rw [show getXtvec { setXcauseInhv (riscvAcknowledgeCLICInt
          (deliverMid st exc tv).st (getExceptionCode exc)) (targetModeOf st exc) true with
        vstart := (setXcauseInhv (riscvAcknowledgeCLICInt (deliverMid st exc tv).st
            (getExceptionCode exc)) (targetModeOf st exc) true).vstart
          &&& (setXcauseInhv (riscvAcknowledgeCLICInt (deliverMid st exc tv).st
            (getExceptionCode exc)) (targetModeOf st exc) true).vstartMask }
          (getModeXPure st.medeleg st.sedeleg (getExceptionCode e2)
            (targetModeOf st exc))
          = getXtvec st (getModeXPure st.medeleg st.sedeleg (getExceptionCode e2)
            (targetModeOf st exc)) from
        this.trans (hmtvec (getModeXPure st.medeleg st.sedeleg (getExceptionCode e2)
          (targetModeOf st exc)))]
    · have hCMSA : useCLICM { setXcauseInhv (riscvAcknowledgeCLICInt
          (deliverMid st exc tv).st (getExceptionCode exc)) (targetModeOf st exc) true with
        vstart := (setXcauseInhv (riscvAcknowledgeCLICInt (deliverMid st exc tv).st
            (getExceptionCode exc)) (targetModeOf st exc) true).vstart
          &&& (setXcauseInhv (riscvAcknowledgeCLICInt (deliverMid st exc tv).st
            (getExceptionCode exc)) (targetModeOf st exc) true).vstartMask } = true :=
        oCM.trans (hmCM.trans hCM)
      have h6 := deliverMid_inhv { setXcauseInhv (riscvAcknowledgeCLICInt
          (deliverMid st exc tv).st (getExceptionCode exc)) (targetModeOf st exc) true with
        vstart := (setXcauseInhv (riscvAcknowledgeCLICInt (deliverMid st exc tv).st
            (getExceptionCode exc)) (targetModeOf st exc) true).vstart
          &&& (setXcauseInhv (riscvAcknowledgeCLICInt (deliverMid st exc tv).st
            (getExceptionCode exc)) (targetModeOf st exc) true).vstartMask } e2 t2 hCMSA
        (targetModeOf st exc)
      have h7 : (getXcause { setXcauseInhv (riscvAcknowledgeCLICInt
          (deliverMid st exc tv).st (getExceptionCode exc)) (targetModeOf st exc) true with
        vstart := (setXcauseInhv (riscvAcknowledgeCLICInt (deliverMid st exc tv).st
            (getExceptionCode exc)) (targetModeOf st exc) true).vstart
          &&& (setXcauseInhv (riscvAcknowledgeCLICInt (deliverMid st exc tv).st
            (getExceptionCode exc)) (targetModeOf st exc) true).vstartMask }
          (targetModeOf st exc)).inhv = true := oInhv
      exact h6.trans h7

/-- C2 witness: the concrete SHV delivery fetches the table entry at
mtvt + 4*40, masks the low bit and clears inhv. -/
theorem takeExceptionHandlerPC_witness :
    (riscvTakeException exampleStateSHV 56 0).pc
        = clearBit0 (readWord exampleStateSHV (getXtvt exampleStateSHV
            (targetModeOf exampleStateSHV 56)
            + exampleStateSHV.xlen / 8 * reportedCode exampleStateSHV 56)) ∧
      (getXcause (riscvTakeException exampleStateSHV 56 0)
        (targetModeOf exampleStateSHV 56)).inhv = false :=
  (takeExceptionHandlerPC exampleStateSHV 56 0 (by decide)).2.2.2.1 (by decide) (by decide)
    (by decide) (by decide)

theorem selLE_refl (a : PendEnab) : selLE a a := Or.inr ⟨rfl, le_refl _⟩

theorem selLE_trans (a b c : PendEnab) (h1 : selLE a b) (h2 : selLE b c) : selLE a c := by
  rcases h1 with h1 | ⟨e1, p1⟩ <;> rcases h2 with h2 | ⟨e2, p2⟩
  · exact Or.inl (h1.trans h2)
  · exact Or.inl (e2 ▸ h1)
  · exact Or.inl (e1 ▸ h2)
  · exact Or.inr ⟨e1.trans e2, p1.trans p2⟩

theorem basicSelStep_none (st : Riscv) (acc : PendEnab) (j : Nat)
    (h : acc.id = RV_NO_INT) : basicSelStep st acc j = tryOf st j := by
  simp only [basicSelStep]
  rw [if_pos h]

theorem tryOf_notNone (st : Riscv) (j : Nat) : (tryOf st j).id ≠ RV_NO_INT := by
  simp [tryOf, RV_NO_INT]

theorem basicSelStep_notNone (st : Riscv) (acc : PendEnab) (j : Nat)
    (hacc : acc.id ≠ RV_NO_INT) : (basicSelStep st acc j).id ≠ RV_NO_INT := by
  simp only [basicSelStep]
  repeat' split
  all_goals first | exact tryOf_notNone st j | exact hacc

theorem basicSelStep_shape (st : Riscv) (acc : PendEnab) (j : Nat) :
    basicSelStep st acc j = tryOf st j ∨ basicSelStep st acc j = acc := by
  simp only [basicSelStep]
  repeat' split
  all_goals first | exact Or.inl rfl | exact Or.inr rfl

theorem basicSelStep_ge (st : Riscv) (acc : PendEnab) (j : Nat)
    (hacc : acc.id ≠ RV_NO_INT) :
    selLE acc (basicSelStep st acc j) ∧ selLE (tryOf st j) (basicSelStep st acc j) := by
  simp only [basicSelStep]
  split
  · next h => exact absurd h hacc
  · split
    · next h => exact ⟨Or.inl h, selLE_refl _⟩
    · split
      · next h2 => exact ⟨selLE_refl _, Or.inl h2⟩
      · next h1 h2 =>
        have he : acc.priv = (tryOf st j).priv :=
          Nat.le_antisymm (Nat.not_lt.mp h2) (Nat.not_lt.mp h1)
        split
        · next h3 =>
          refine ⟨Or.inr ⟨he, ?_⟩, selLE_refl _⟩
          simpa [tryOf] using h3
        · next h3 =>
          refine ⟨selLE_refl _, Or.inr ⟨he.symm, ?_⟩⟩
          simpa [tryOf] using Nat.le_of_not_le h3

theorem basicFold_spec (st : Riscv) (l : List Nat) :
    ∀ acc : PendEnab, acc.id ≠ RV_NO_INT →
    (l.foldl (basicSelStep st) acc = acc
        ∨ ∃ i ∈ l, l.foldl (basicSelStep st) acc = tryOf st i) ∧
      selLE acc (l.foldl (basicSelStep st) acc) ∧
      ∀ j ∈ l, selLE (tryOf st j) (l.foldl (basicSelStep st) acc) := by
  induction l with
  | nil =>
    intro acc hacc
    exact ⟨Or.inl rfl, selLE_refl _, by simp⟩
  | cons a l ih =>
    intro acc hacc
    have hstep := basicSelStep_ge st acc a hacc
    have hnn := basicSelStep_notNone st acc a hacc
    obtain ⟨hshape, hge, hdom⟩ := ih (basicSelStep st acc a) hnn
    simp only [List.foldl_cons]
    refine ⟨?_, ?_, ?_⟩
    · rcases hshape with h | ⟨i, hi, h⟩
      · rcases basicSelStep_shape st acc a with h2 | h2
        · exact Or.inr ⟨a, by simp, h.trans h2⟩
        · exact Or.inl (h.trans h2)
      · exact Or.inr ⟨i, by simp [hi], h⟩
    · exact selLE_trans _ _ _ hstep.1 hge
    · intro j hj
      rcases List.mem_cons.mp hj with rfl | hj2
      · exact selLE_trans _ _ _ hstep.2 hge
      · exact hdom j hj2

theorem getPendingBasic_lt (st : Riscv) : getPendingBasic st < 2 ^ 64 := by
  unfold getPendingBasic allOnes64
  have h := Nat.and_le_right (n := st.mie &&& st.mip) (m := 2 ^ 64 - 1)
  omega

theorem maskedPendingBasic_lt (st : Riscv) : maskedPendingBasic st < 2 ^ 64 := by
  have h0 := getPendingBasic_lt st
  simp only [maskedPendingBasic]
  repeat' split
  all_goals refine Nat.lt_of_le_of_lt ?_ h0
  all_goals repeat first | exact le_rfl | refine le_trans Nat.and_le_left ?_

theorem basicCands_ne (st : Riscv) (hne : maskedPendingBasic st ≠ 0) :
    basicCands st ≠ [] := by
  obtain ⟨i, hbit, _⟩ := Nat.exists_most_significant_bit hne
  have hi64 : i < 64 := by
    by_contra hcon
    have hlt : maskedPendingBasic st < 2 ^ i :=
      lt_of_lt_of_le (maskedPendingBasic_lt st)
        (Nat.pow_le_pow_right (by omega) (by omega))
    rw [Nat.testBit_eq_false_of_lt hlt] at hbit
    exact absurd hbit (by decide)
  intro hcon
  have hmem : i ∈ basicCands st := by
    simp [basicCands, hi64, hbit]
  rw [hcon] at hmem
  simp at hmem

theorem refreshPendingAndEnabled_basicOnly (st : Riscv) (hB : basicICPresent st = true)
    (hC : CLICPresent st = false) :
    refreshPendingAndEnabled st = refreshPendingAndEnabledBasic (arbReset st) := by
  simp only [refreshPendingAndEnabled]
  split
  · split
    · next hcond =>
      exfalso
      obtain ⟨p, hp⟩ := refreshPendingAndEnabledBasic_frame (arbReset st)
      have hcond' : CLICPresent (refreshPendingAndEnabledBasic (arbReset st)) = true := hcond
      rw [hp] at hcond'
      have hcf : CLICPresent st = true := hcond'
      rw [hC] at hcf
      exact absurd hcf (by decide)
    · rfl
  · next hcond => exact absurd hB hcond

theorem refreshPendingAndEnabledBasic_fold (st : Riscv)
    (hne : maskedPendingBasic st ≠ 0) :
    refreshPendingAndEnabledBasic (arbReset st)
      = { arbReset st with
          pendEnab := (basicCands (arbReset st)).foldl (basicSelStep (arbReset st))
            arbInit } := by
  have hne' : maskedPendingBasic (arbReset st) ≠ 0 := hne
  simp only [refreshPendingAndEnabledBasic]
  split
  · rfl
  · next hcond => exact absurd hne' hcond

/-- C5: with the basic interrupt controller present (and no CLIC), a
non-empty effective pending-and-enabled mask makes the arbiter select a
basic-mode candidate whose target mode and fixed priority dominate every
other masked pending interrupt, with the fixed priority table ordered
MEI > MSI > MTI > SEI > SSI > STI > UEI > USI > UTI and every local
interrupt below all standard ones. -/
theorem basicArbitrationSpec (st : Riscv) (hB : basicICPresent st = true)
    (hC : CLICPresent st = false) (hne : maskedPendingBasic st ≠ 0) :
    (refreshPendingAndEnabled st).pendEnab.isCLIC = false ∧
    (maskedPendingBasic st).testBit (refreshPendingAndEnabled st).pendEnab.id.toNat
      = true ∧
    (refreshPendingAndEnabled st).pendEnab.priv
      = getInterruptModeX st (refreshPendingAndEnabled st).pendEnab.id.toNat ∧
    (∀ j, j < 64 → (maskedPendingBasic st).testBit j = true →
      basicKeyLE st j (refreshPendingAndEnabled st).pendEnab) ∧
    (getIntPri 4 < getIntPri 0 ∧ getIntPri 0 < getIntPri 8 ∧ getIntPri 8 < getIntPri 5 ∧
      getIntPri 5 < getIntPri 1 ∧ getIntPri 1 < getIntPri 9 ∧ getIntPri 9 < getIntPri 7 ∧
      getIntPri 7 < getIntPri 3 ∧ getIntPri 3 < getIntPri 11) ∧
    (∀ j, 16 ≤ j → getIntPri j < getIntPri 4) := by
  have hne' : maskedPendingBasic (arbReset st) ≠ 0 := hne
  rw [refreshPendingAndEnabled_basicOnly st hB hC,
    refreshPendingAndEnabledBasic_fold st hne]
  rcases hl : basicCands (arbReset st) with _ | ⟨a, l'⟩
  · exact absurd hl (basicCands_ne _ hne')
  · have hstep0 : basicSelStep (arbReset st) arbInit a = tryOf (arbReset st) a :=
      basicSelStep_none _ _ _ rfl
    obtain ⟨hshape, hge, hdom⟩ :=
      basicFold_spec (arbReset st) l' (tryOf (arbReset st) a) (tryOf_notNone _ _)
    have hfold : (a :: l').foldl (basicSelStep (arbReset st)) arbInit
        = l'.foldl (basicSelStep (arbReset st)) (tryOf (arbReset st) a) := by
      simp only [List.foldl_cons]
      rw [hstep0]
    obtain ⟨i0, hmem0, hsel⟩ : ∃ i0 ∈ a :: l',
        l'.foldl (basicSelStep (arbReset st)) (tryOf (arbReset st) a)
          = tryOf (arbReset st) i0 := by
      rcases hshape with h | ⟨i, hi, h⟩
      · exact ⟨a, by simp, h⟩
      · exact ⟨i, by simp [hi], h⟩
    have hmem : i0 ∈ basicCands (arbReset st) := by
      rw [hl]
      exact hmem0
    have hbit : (maskedPendingBasic (arbReset st)).testBit i0 = true := by
      have hm2 := hmem
      simp [basicCands, List.mem_filter] at hm2
      exact hm2.2
    refine ⟨?_, ?_, ?_, ?_, by decide, ?_⟩
    · rw [hfold, hsel]
      rfl
    · rw [hfold, hsel]
      exact hbit
    · rw [hfold, hsel]
      rfl
    · intro j hj64 hjbit
      have hjbit' : (maskedPendingBasic (arbReset st)).testBit j = true := hjbit
      have hjmem : j ∈ basicCands (arbReset st) :=
        List.mem_filter.mpr ⟨List.mem_range.mpr hj64, hjbit'⟩
      rw [hl] at hjmem
      rw [hfold]
      rcases List.mem_cons.mp hjmem with rfl | hj2
      · exact hge
      · exact hdom j hj2
    · intro j hj
      have hz : getIntPri j = 0 := by
        simp only [getIntPri]
        repeat' split
        all_goals omega
      rw [hz]
      decide

/-- C5 witness: with MTI pending for M and STI delegated to S, the
arbiter picks a candidate dominating both. -/
theorem basicArbitrationSpec_witness :
    (refreshPendingAndEnabled exampleStateArb).pendEnab.priv
      = getInterruptModeX exampleStateArb
          (refreshPendingAndEnabled exampleStateArb).pendEnab.id.toNat ∧
    (maskedPendingBasic exampleStateArb).testBit
      (refreshPendingAndEnabled exampleStateArb).pendEnab.id.toNat = true :=
  ⟨(basicArbitrationSpec exampleStateArb (by decide) (by decide) (by decide)).2.2.1,
   (basicArbitrationSpec exampleStateArb (by decide) (by decide) (by decide)).2.1⟩

theorem clicFold_spec (st : Riscv) (l : List Nat) :
    ∀ acc : Nat × Int, List.Pairwise (· < ·) l → (∀ j ∈ l, acc.2 < (j : Int)) →
    ((l.foldl (clicScanStep st) acc = acc
        ∨ ∃ i ∈ l, l.foldl (clicScanStep st) acc = (clicRank st i, (i : Int))) ∧
      acc.1 ≤ (l.foldl (clicScanStep st) acc).1 ∧
      (∀ j ∈ l, clicRank st j ≤ (l.foldl (clicScanStep st) acc).1) ∧
      (∀ j ∈ l, (l.foldl (clicScanStep st) acc).1 = clicRank st j →
        (j : Int) ≤ (l.foldl (clicScanStep st) acc).2)) := by
  induction l with
  | nil =>
    intro acc _ _
    exact ⟨Or.inl rfl, le_rfl, by simp, by simp⟩
  | cons a l ih =>
    intro acc hpw hlt
    obtain ⟨hhead, hpw'⟩ := List.pairwise_cons.mp hpw
    simp only [List.foldl_cons]
    by_cases hc : acc.1 ≤ clicRank st a
    · have hstep : clicScanStep st acc a = (clicRank st a, (a : Int)) := by
        simp only [clicScanStep]
        rw [if_pos hc]
      rw [hstep]
      have hlt' : ∀ j ∈ l, ((clicRank st a, (a : Int)) : Nat × Int).2 < (j : Int) := by
        intro j hj
        show (a : Int) < (j : Int)
        exact_mod_cast hhead j hj
      obtain ⟨hsh, hmono, hmax, htie⟩ := ih (clicRank st a, (a : Int)) hpw' hlt'
      refine ⟨?_, ?_, ?_, ?_⟩
      · rcases hsh with h | ⟨i, hi, h⟩
        · exact Or.inr ⟨a, by simp, h⟩
        · exact Or.inr ⟨i, by simp [hi], h⟩
      · exact le_trans hc (by simpa using hmono)
      · intro j hj
        rcases List.mem_cons.mp hj with rfl | hj2
        · simpa using hmono
        · exact hmax j hj2
      · intro j hj heq
        rcases List.mem_cons.mp hj with rfl | hj2
        · rcases hsh with h | ⟨i, hi, h⟩
          · rw [h]
          · rw [h]
            simp only []
            exact_mod_cast le_of_lt (hhead i hi)
        · exact htie j hj2 heq
    · have hstep : clicScanStep st acc a = acc := by
        simp only [clicScanStep]
        rw [if_neg hc]
      rw [hstep]
      have hlt' : ∀ j ∈ l, acc.2 < (j : Int) := fun j hj => hlt j (by simp [hj])
      obtain ⟨hsh, hmono, hmax, htie⟩ := ih acc hpw' hlt'
      refine ⟨?_, ?_, ?_, ?_⟩
      · rcases hsh with h | ⟨i, hi, h⟩
        · exact Or.inl h
        · exact Or.inr ⟨i, by simp [hi], h⟩
      · exact hmono
      · intro j hj
        rcases List.mem_cons.mp hj with rfl | hj2
        · exact le_trans (le_of_lt (Nat.not_le.mp hc)) hmono
        · exact hmax j hj2
      · intro j hj heq
        rcases List.mem_cons.mp hj with rfl | hj2
        · exfalso
          have h1 : clicRank st j < acc.1 := Nat.not_le.mp hc
          omega
        · exact htie j hj2 heq

theorem clicCands_pairwise (st : Riscv) : List.Pairwise (· < ·) (clicCands st) := by
  simp only [clicCands]
  exact (List.pairwise_lt_range _).filter _

/-- C6: CLIC arbitration over a non-empty pending-and-enabled mask
records in clic.sel an interrupt whose rank (target mode in the high
bits, clicintctl below) is maximal, resolving rank ties in favour of
the highest interrupt index, together with its target mode as priv, its
level as clicintctl with the bits below the nlbits most-significant
level bits forced to one, and its shv attribute bit. -/
theorem clicArbitrationSpec (st : Riscv) (hne : clicCands st ≠ []) :
    st.clicIpe.testBit (refreshPendingAndEnabledCLIC st).clicSel.id.toNat = true ∧
    (∀ j, j < scanN st → st.clicIpe.testBit j = true →
      clicRank st j ≤ clicRank st (refreshPendingAndEnabledCLIC st).clicSel.id.toNat) ∧
    (∀ j, j < scanN st → st.clicIpe.testBit j = true →
      clicRank st j = clicRank st (refreshPendingAndEnabledCLIC st).clicSel.id.toNat →
      j ≤ (refreshPendingAndEnabledCLIC st).clicSel.id.toNat) ∧
    (refreshPendingAndEnabledCLIC st).clicSel.priv
      = getCLICInterruptMode st (refreshPendingAndEnabledCLIC st).clicSel.id.toNat ∧
    (refreshPendingAndEnabledCLIC st).clicSel.level
      = clicLevel st.cliccfg.nlbits
          (st.clicIntState (refreshPendingAndEnabledCLIC st).clicSel.id.toNat).ctl ∧
    (refreshPendingAndEnabledCLIC st).clicSel.shv
      = decide (attrShv
          (st.clicIntState (refreshPendingAndEnabledCLIC st).clicSel.id.toNat).attr
          ≠ 0) := by
  have hne' : clicCands { st with clicSel := { priv := 0, id := RV_NO_INT, level := 0, shv := false } } ≠ [] := hne
  rcases hl : clicCands { st with clicSel := { priv := 0, id := RV_NO_INT, level := 0, shv := false } } with _ | ⟨a, l'⟩
  · exact absurd hl hne'
  · have hpwA : List.Pairwise (· < ·) (a :: l') := hl ▸ clicCands_pairwise { st with clicSel := { priv := 0, id := RV_NO_INT, level := 0, shv := false } }
    obtain ⟨hhead, hpw'⟩ := List.pairwise_cons.mp hpwA
    have hstep0 : clicScanStep { st with clicSel := { priv := 0, id := RV_NO_INT, level := 0, shv := false } } (0, RV_NO_INT) a
        = (clicRank { st with clicSel := { priv := 0, id := RV_NO_INT, level := 0, shv := false } } a, (a : Int)) := by
      simp only [clicScanStep]
      rw [if_pos (Nat.zero_le _)]
    have hlt0 : ∀ j ∈ l', ((clicRank { st with clicSel := { priv := 0, id := RV_NO_INT, level := 0, shv := false } } a,
        (a : Int)) : Nat × Int).2 < (j : Int) := by
      intro j hj
      show (a : Int) < (j : Int)
      exact_mod_cast hhead j hj
    obtain ⟨hsh, hmono, hmax, htie⟩ :=
      clicFold_spec { st with clicSel := { priv := 0, id := RV_NO_INT, level := 0, shv := false } } l'
        (clicRank { st with clicSel := { priv := 0, id := RV_NO_INT, level := 0, shv := false } } a, (a : Int)) hpw' hlt0
    obtain ⟨i0, hmem0, hr⟩ : ∃ i0 ∈ a :: l',
        l'.foldl (clicScanStep { st with clicSel := { priv := 0, id := RV_NO_INT, level := 0, shv := false } })
          (clicRank { st with clicSel := { priv := 0, id := RV_NO_INT, level := 0, shv := false } } a, (a : Int))
        = (clicRank { st with clicSel := { priv := 0, id := RV_NO_INT, level := 0, shv := false } } i0, (i0 : Int)) := by
      rcases hsh with h | ⟨i, hi, h⟩
      · exact ⟨a, by simp, h⟩
      · exact ⟨i, by simp [hi], h⟩
    have hscan : (clicCands { st with clicSel := { priv := 0, id := RV_NO_INT, level := 0, shv := false } }).foldl
        (clicScanStep { st with clicSel := { priv := 0, id := RV_NO_INT, level := 0, shv := false } }) (0, RV_NO_INT)
        = (clicRank { st with clicSel := { priv := 0, id := RV_NO_INT, level := 0, shv := false } } i0, (i0 : Int)) := by
      rw [hl]
      simp only [List.foldl_cons]
      rw [hstep0, hr]
    have hmaxAll : ∀ j ∈ a :: l', clicRank { st with clicSel := { priv := 0, id := RV_NO_INT, level := 0, shv := false } } j
        ≤ clicRank { st with clicSel := { priv := 0, id := RV_NO_INT, level := 0, shv := false } } i0 := by
      intro j hj
      rcases List.mem_cons.mp hj with rfl | hj2
      · have h1 := hmono
        rw [hr] at h1
        simpa using h1
      · have h1 := hmax j hj2
        rw [hr] at h1
        exact h1
    have htieAll : ∀ j ∈ a :: l', clicRank { st with clicSel := { priv := 0, id := RV_NO_INT, level := 0, shv := false } } j
        = clicRank { st with clicSel := { priv := 0, id := RV_NO_INT, level := 0, shv := false } } i0 → j ≤ i0 := by
      intro j hj heq
      rcases List.mem_cons.mp hj with rfl | hj2
      · rcases hsh with h | ⟨i, hi, h⟩
        · have : (clicRank { st with clicSel := { priv := 0, id := RV_NO_INT, level := 0, shv := false } } i0, (i0 : Int)) = (clicRank { st with clicSel := { priv := 0, id := RV_NO_INT, level := 0, shv := false } } j, (j : Int)) := by
            rw [← hr, h]
          have h2 : (i0 : Int) = (j : Int) := congrArg Prod.snd this
          omega
        · have h2 : (i : Int) = (i0 : Int) := congrArg Prod.snd (h.symm.trans hr)
          have h3 : i = i0 := by exact_mod_cast h2
          have h4 := hhead i hi
          omega
      · have h1 := htie j hj2 (by rw [hr]; exact heq.symm)
        rw [hr] at h1
        have h2 : (j : Int) ≤ (i0 : Int) := h1
        exact_mod_cast h2
    have hid : ((clicCands { st with clicSel := { priv := 0, id := RV_NO_INT, level := 0, shv := false } }).foldl (clicScanStep { st with clicSel := { priv := 0, id := RV_NO_INT, level := 0, shv := false } }) (0, RV_NO_INT)).2
        ≠ RV_NO_INT := by
      rw [hscan]
      show (i0 : Int) ≠ RV_NO_INT
      simp [RV_NO_INT]
    have hclicSel : (refreshPendingAndEnabledCLIC st).clicSel
        = { id := (i0 : Int), priv := getCLICInterruptMode st i0,
            level := clicLevel st.cliccfg.nlbits (st.clicIntState i0).ctl,
            shv := decide (attrShv (st.clicIntState i0).attr ≠ 0) } := by
      simp only [refreshPendingAndEnabledCLIC]
      rw [hscan]
      rw [if_pos (show ((clicRank { st with clicSel := { priv := 0, id := RV_NO_INT, level := 0, shv := false } } i0, (i0 : Int)) : Nat × Int).2 ≠ RV_NO_INT from by
        rw [hscan] at hid
        exact hid)]
      repeat' split
      all_goals rfl
    have hmemBit : ∀ j, j < scanN st → st.clicIpe.testBit j = true → j ∈ a :: l' := by
      intro j hjn hjb
      have hjn' : j < scanN { st with clicSel := { priv := 0, id := RV_NO_INT, level := 0, shv := false } } := hjn
      have hjb' : ({ st with clicSel := { priv := 0, id := RV_NO_INT, level := 0, shv := false } } : Riscv).clicIpe.testBit j = true := hjb
      have : j ∈ clicCands { st with clicSel := { priv := 0, id := RV_NO_INT, level := 0, shv := false } } :=
        List.mem_filter.mpr ⟨List.mem_range.mpr hjn', hjb'⟩
      rw [hl] at this
      exact this
    have hi0mem : i0 ∈ clicCands { st with clicSel := { priv := 0, id := RV_NO_INT, level := 0, shv := false } } := by
      rw [hl]
      exact hmem0
    have hi0bit : st.clicIpe.testBit i0 = true := by
      have h2 := hi0mem
      simp [clicCands, List.mem_filter] at h2
      exact h2.2
    rw [hclicSel]
    refine ⟨?_, ?_, ?_, rfl, rfl, rfl⟩
    · exact hi0bit
    · intro j hjn hjb
      exact hmaxAll j (hmemBit j hjn hjb)
    · intro j hjn hjb heq
      exact htieAll j (hmemBit j hjn hjb) heq

/-- C6 witness: interrupts 3 and 9 tie on rank, so the arbiter selects
the higher index, with priv, level and shv taken from its record. -/
theorem clicArbitrationSpec_witness :
    exampleStateCLIC.clicIpe.testBit
      (refreshPendingAndEnabledCLIC exampleStateCLIC).clicSel.id.toNat = true ∧
    (refreshPendingAndEnabledCLIC exampleStateCLIC).clicSel.level
      = clicLevel exampleStateCLIC.cliccfg.nlbits
          (exampleStateCLIC.clicIntState
            (refreshPendingAndEnabledCLIC exampleStateCLIC).clicSel.id.toNat).ctl :=
  ⟨(clicArbitrationSpec exampleStateCLIC (by decide)).1,
   (clicArbitrationSpec exampleStateCLIC (by decide)).2.2.2.2.1⟩
